import Mathlib

/-!
# Life Mirror: the health-state engine

A shallow embedding of the rule engine of the Life Mirror application
(`src/utils/healthLogic.js`, `src/utils/avatarState.js`, and the two lookup
tables and the what-if update of `handleMomentSubmit` in `src/App.jsx`), of the
rate limiter of `src/services/geminiService.js` and of `getMetricStatus` in
`src/components/DashboardOverview.jsx`, followed by theorems about them.

Days and clock.  A calendar day is an integer day number and a time value is
an integer number of milliseconds since the epoch; the clock reading and the
time zone that `calculateStreak` takes from its host are explicit arguments.

Numbers.  A JavaScript number is modelled by an exact rational.  A metric that
may be absent (`undefined`) is an `Option ℚ`; in arithmetic and in comparisons
`none` behaves as `NaN` does in JavaScript: arithmetic propagates it and every
comparison with it is false.  Binary floating-point rounding is not modelled:
the lemmas that hold in exact arithmetic only say so.
-/

namespace LifeMirror

/-! ## JavaScript operators on optional numbers -/

/-- The expression `x || d` for a number-or-undefined `x`: `undefined` and `0`
are falsy and yield the default `d`; every other number is returned as is. -/
def orDefault (x : Option ℚ) (d : ℚ) : ℚ :=
  match x with
  | some v => if v = 0 then d else v
  | none => d

/-- A binary arithmetic operator of JavaScript on number-or-undefined operands
(`undefined` converts to `NaN`, which propagates). -/
def jsArith (f : ℚ → ℚ → ℚ) : Option ℚ → Option ℚ → Option ℚ
  | some x, some y => some (f x y)
  | _, _ => none

/-- The comparison `a < b` of JavaScript: false when an operand is `NaN`. -/
def jsLt : Option ℚ → Option ℚ → Bool
  | some x, some y => decide (x < y)
  | _, _ => false

/-- The comparison `a > b` of JavaScript: false when an operand is `NaN`. -/
def jsGt : Option ℚ → Option ℚ → Bool
  | some x, some y => decide (x > y)
  | _, _ => false

/-- The nested call `Math.max(0, Math.min(100, x))`. -/
def clamp100 (x : ℚ) : ℚ := max 0 (min 100 x)

/-! ## Data model -/

/-- A health-state snapshot: five metrics, each possibly absent. -/
structure HealthState where
  energy : Option ℚ
  glucoseStress : Option ℚ
  insulinWorkload : Option ℚ
  adherenceMomentum : Option ℚ
  stressLevel : Option ℚ
deriving DecidableEq

/-- An impact object: a sparse mapping from keys to signed deltas.  The keys
that occur in the source are the four metric names `energy`, `glucoseStress`,
`insulinWorkload`, `adherenceMomentum` and the key `stress`; the key
`stressLevel` is kept as well, so that an object carrying it can be written. -/
structure ImpactVector where
  energy : Option ℚ := none
  glucoseStress : Option ℚ := none
  insulinWorkload : Option ℚ := none
  adherenceMomentum : Option ℚ := none
  stress : Option ℚ := none
  stressLevel : Option ℚ := none
deriving DecidableEq

/-- The object literal `{}`. -/
def emptyImpact : ImpactVector := {}

/-- A life moment, restricted to the fields the engine reads.  `impact` is
`none` when the object has no truthy `impact` property. -/
structure Moment where
  type : String
  intensity : String
  impact : Option ImpactVector := none
deriving DecidableEq

/-! ## `healthLogic.js` -/

/-- The function `applyMomentImpact` of `healthLogic.js`.  The argument
`moment` is `none` for a falsy `moment`. -/
def applyMomentImpact (currentState : HealthState) (moment : Option Moment) : HealthState :=
  match moment with
  | none => currentState
  | some m =>
    match m.impact with
    | none => currentState
    | some impact =>
      { energy := some (clamp100 (orDefault currentState.energy 50 + orDefault impact.energy 0))
        glucoseStress :=
          some (clamp100 (orDefault currentState.glucoseStress 50 + orDefault impact.glucoseStress 0))
        insulinWorkload :=
          some (clamp100 (orDefault currentState.insulinWorkload 50 + orDefault impact.insulinWorkload 0))
        adherenceMomentum :=
          some (clamp100 (orDefault currentState.adherenceMomentum 50 + orDefault impact.adherenceMomentum 0))
        stressLevel := some (clamp100 (orDefault currentState.stressLevel 50 + orDefault impact.stress 0)) }

/-- The three results of `calculateTrend`. -/
inductive Trend where
  | improving
  | declining
  | stable
deriving DecidableEq, Repr

/-- The average `(s.energy + (100 - s.glucoseStress) + (100 - s.insulinWorkload)) / 3`
as `calculateTrend` computes it, on metrics read without a default.  The
division is exact here; the source divides in binary floating point. -/
def trendAvg (s : HealthState) : Option ℚ :=
  jsArith (· / ·)
    (jsArith (· + ·)
      (jsArith (· + ·) s.energy (jsArith (· - ·) (some 100) s.glucoseStress))
      (jsArith (· - ·) (some 100) s.insulinWorkload))
    (some 3)

/-- The function `calculateTrend` of `healthLogic.js`, on exact averages: it
agrees with the source wherever the comparisons do not turn on the rounding of
the division by 3, that is, away from a difference of exactly 5. -/
def calculateTrend (previousState currentState : HealthState) : Trend :=
  let previousAvg := trendAvg previousState
  let currentAvg := trendAvg currentState
  if jsGt currentAvg (jsArith (· + ·) previousAvg (some 5)) then Trend.improving
  else if jsLt currentAvg (jsArith (· - ·) previousAvg (some 5)) then Trend.declining
  else Trend.stable

/-- The closed enumeration of risk factors (the strings pushed by
`identifyRiskFactors`). -/
inductive RiskFactor where
  | high_glucose_stress
  | high_stress
  | low_energy
  | pancreas_overload
  | losing_momentum
  | triple_hit_pattern
deriving DecidableEq, Repr

/-- The call `recentMoments?.some(m => m.type === t && m.intensity === i)`:
`none` (`undefined`) when the window itself is absent. -/
def someMoment (recentMoments : Option (List Moment)) (t i : String) : Option Bool :=
  recentMoments.map (fun ms => ms.any (fun m => m.type == t && m.intensity == i))

/-- Truthiness of a boolean-or-undefined value. -/
def truthy : Option Bool → Bool
  | some b => b
  | none => false

/-- One statement `if (c) risks.push(r)`. -/
def pushIf (c : Bool) (r : RiskFactor) (risks : List RiskFactor) : List RiskFactor :=
  if c then risks ++ [r] else risks

/-- The function `identifyRiskFactors` of `healthLogic.js`; the result is the
array `risks`, in push order. -/
def identifyRiskFactors (healthState : HealthState) (recentMoments : Option (List Moment)) :
    List RiskFactor :=
  let risks : List RiskFactor := []
  let risks := pushIf (jsGt healthState.glucoseStress (some 70)) .high_glucose_stress risks
  let risks := pushIf (jsGt healthState.stressLevel (some 75)) .high_stress risks
  let risks := pushIf (jsLt healthState.energy (some 30)) .low_energy risks
  let risks := pushIf (jsGt healthState.insulinWorkload (some 80)) .pancreas_overload risks
  let risks := pushIf (jsLt healthState.adherenceMomentum (some 30)) .losing_momentum risks
  let hasRecentPoorSleep := someMoment recentMoments "sleep" "poor"
  let hasRecentHighStress := someMoment recentMoments "stress" "high"
  let hasRecentPoorDiet := someMoment recentMoments "diet" "high"
  pushIf (truthy hasRecentPoorSleep && truthy hasRecentHighStress && truthy hasRecentPoorDiet)
    .triple_hit_pattern risks

/-! ## `avatarState.js` -/

/-- The keys of the table `AVATAR_STATES`. -/
inductive AvatarCategory where
  | energized
  | balanced
  | struggling
  | stressed
  | tired
  | recovering
deriving DecidableEq, Repr

/-- The composite `healthScore` of `mapHealthToAvatarState`:
`energy * 0.25 + (100 - glucoseStress) * 0.25 + (100 - insulinWorkload) * 0.25 +
adherenceMomentum * 0.25`. -/
def healthScore (healthState : HealthState) : Option ℚ :=
  jsArith (· + ·)
    (jsArith (· + ·)
      (jsArith (· + ·)
        (jsArith (· * ·) healthState.energy (some 0.25))
        (jsArith (· * ·) (jsArith (· - ·) (some 100) healthState.glucoseStress) (some 0.25)))
      (jsArith (· * ·) (jsArith (· - ·) (some 100) healthState.insulinWorkload) (some 0.25)))
    (jsArith (· * ·) healthState.adherenceMomentum (some 0.25))

/-- The function `mapHealthToAvatarState` of `avatarState.js`; the result is
the key of the `AVATAR_STATES` entry that the source returns. -/
def mapHealthToAvatarState (healthState : HealthState) : AvatarCategory :=
  let energy := healthState.energy
  let glucoseStress := healthState.glucoseStress
  let insulinWorkload := healthState.insulinWorkload
  let stressLevel := healthState.stressLevel
  let adherenceMomentum := healthState.adherenceMomentum
  let healthScore := healthScore healthState
  if jsLt energy (some 25) && jsGt stressLevel (some 70) then .stressed
  else if jsLt energy (some 35) then .tired
  else if jsGt glucoseStress (some 75) || jsGt insulinWorkload (some 80) then .struggling
  else if jsGt stressLevel (some 60) && jsLt energy (some 50) then .struggling
  else if jsGt healthScore (some 75) then .energized
  else if jsGt energy (some 70) && jsGt adherenceMomentum (some 70) then .energized
  else if jsGt energy (some 50) && jsLt glucoseStress (some 50) && jsLt stressLevel (some 50) then
    .balanced
  else if jsGt healthScore (some 50) then .balanced
  else if jsGt healthScore (some 40) && jsGt adherenceMomentum (some 50) then .recovering
  else .balanced

/-! ## The lookup tables of `App.jsx` -/

/-- A two-level object literal keyed by moment type, then by intensity, given
by its own keys in source order (the properties it inherits from
`Object.prototype` are added by `lookupValue`). -/
abbrev ImpactTable := List (String × List (String × ImpactVector))

/-- The expression `table[type]?.[intensity] || {}` on the own keys of the
table and of its rows.  It is the value of the source expression whenever
neither key names a property inherited from `Object.prototype`
(`lookupValue_eq_lookupOrEmpty`); the keys offered by the input form are of
that kind. -/
def lookupOrEmpty (table : ImpactTable) (type intensity : String) : ImpactVector :=
  match table.lookup type with
  | none => emptyImpact
  | some row =>
    match row.lookup intensity with
    | none => emptyImpact
    | some v => v

/-- The string-keyed properties of `Object.prototype` (ECMAScript, with the
legacy accessors of its Annex B), which every object literal inherits. -/
def objectPrototypeKeys : List String :=
  ["constructor", "__proto__", "hasOwnProperty", "isPrototypeOf", "propertyIsEnumerable",
    "toLocaleString", "toString", "valueOf", "__defineGetter__", "__defineSetter__",
    "__lookupGetter__", "__lookupSetter__"]

/-- What the expression `table[type]?.[intensity] || {}` can evaluate to. -/
inductive Resolved where
  /-- An impact object: an entry of the table, or the `{}` of `|| {}`. -/
  | vector (v : ImpactVector)
  /-- The built-in function or object `Object.prototype[key]`, read through a
  row of the table: a truthy value that is no impact object. -/
  | builtin (key : String)
  /-- A string. -/
  | str (s : String)
  /-- A property of a built-in function or object other than the one listed in
  `lookupValue`; its value is not modelled. -/
  | unmodelled
deriving DecidableEq

/-- The expression `table[type]?.[intensity] || {}`, inherited properties
included.  A row of the table yields its own entry, else the truthy built-in
it inherits under that key, else `{}`.  A type that is no key of the table but
names a property of `Object.prototype` yields a built-in, whose property
`intensity` is read next: `Object.prototype.constructor.name` is the string
`"Object"`; the other properties of built-ins are not modelled.  Any other type
yields `undefined`, hence `{}`. -/
def lookupValue (table : ImpactTable) (type intensity : String) : Resolved :=
  match table.lookup type with
  | some row =>
    match row.lookup intensity with
    | some v => Resolved.vector v
    | none =>
      if intensity ∈ objectPrototypeKeys then Resolved.builtin intensity
      else Resolved.vector emptyImpact
  | none =>
    if type ∈ objectPrototypeKeys then
      if type = "constructor" ∧ intensity = "name" then Resolved.str "Object"
      else Resolved.unmodelled
    else Resolved.vector emptyImpact

/-- The table has an entry for the pair: some row keyed `type` holds the key
`intensity`. -/
def hasEntry (table : ImpactTable) (type intensity : String) : Bool :=
  table.any (fun row => row.1 == type && row.2.any (fun cell => cell.1 == intensity))

/-- The constant `impactMap` of `handleMomentSubmit`. -/
def impactMap : ImpactTable :=
  [ ("sleep",
      [ ("poor", { energy := some (-25), stress := some 15, glucoseStress := some 10 }),
        ("good", { energy := some 25, stress := some (-15) }) ]),
    ("activity",
      [ ("high", { energy := some 20, stress := some (-15), glucoseStress := some (-10),
                   insulinWorkload := some (-5) }),
        ("low", { energy := some (-5) }) ]),
    ("diet",
      [ ("high", { glucoseStress := some 25, insulinWorkload := some 20 }),
        ("low", { glucoseStress := some (-8), insulinWorkload := some (-3),
                  adherenceMomentum := some 8 }) ]),
    ("stress",
      [ ("high", { stress := some 30, energy := some (-15), glucoseStress := some 8 }),
        ("low", { stress := some (-10) }) ]),
    ("emotional",
      [ ("positive", { stress := some (-12), energy := some 10, adherenceMomentum := some 5 }),
        ("negative", { stress := some 10, energy := some (-5) }) ]) ]

/-- The value `momentImpact` that `handleMomentSubmit` stores in the new
moment: `impactMap[newMoment.type]?.[newMoment.intensity] || {}`, on own keys
(see `lookupOrEmpty`; `lookupValue impactMap` adds the inherited ones). -/
def momentImpact (newMoment : Moment) : ImpactVector :=
  lookupOrEmpty impactMap newMoment.type newMoment.intensity

/-- The constant `scenarios` of `generateAlternativeScenario`. -/
def scenarios : ImpactTable :=
  [ ("sleep",
      [ ("poor", { energy := some 0, stress := some (-5), glucoseStress := some (-3) }) ]),
    ("activity",
      [ ("high", { energy := some 10, stress := some (-8) }),
        ("low", { energy := some 10, stress := some (-8), adherenceMomentum := some 5 }),
        ("skipped", { energy := some 15, adherenceMomentum := some 15 }) ]),
    ("diet",
      [ ("high", { glucoseStress := some (-15), insulinWorkload := some (-12),
                   adherenceMomentum := some 8 }) ]),
    ("stress",
      [ ("high", { stress := some (-15), energy := some 5 }) ]) ]

/-- The function `generateAlternativeScenario` of `App.jsx`:
`scenarios[moment.type]?.[moment.intensity] || {}`, on own keys (see
`lookupOrEmpty`; `lookupValue scenarios` adds the inherited ones). -/
def generateAlternativeScenario (moment : Moment) : ImpactVector :=
  lookupOrEmpty scenarios moment.type moment.intensity

/-- The value `updatedWhatIfTwin` of `handleMomentSubmit`:
`applyMomentImpact(whatIfTwin, generateAlternativeScenario(savedMoment))`.  The
second argument is the scenario vector itself.  Read as a moment it is an
object without an `impact` property (no vector of `scenarios` has that key) and
without `type` and `intensity`, which `applyMomentImpact` does not read and
which are written as the empty string. -/
def updatedWhatIfTwin (whatIfTwin : HealthState) (savedMoment : Moment) : HealthState :=
  let whatIfScenario := generateAlternativeScenario savedMoment
  let asMoment : ImpactVector → Moment := fun _ => { type := "", intensity := "", impact := none }
  applyMomentImpact whatIfTwin (some (asMoment whatIfScenario))

/-! ## `healthLogic.js`: the twin simulator and the streak -/

/-- The object literal `{ impact: v }`.  It has no `type` and no `intensity`;
`applyMomentImpact` does not read them and they are written as the empty
string. -/
def impactOnly (v : ImpactVector) : Moment := { type := "", intensity := "", impact := some v }

/-- The function `simulateWhatIfTwin` of `healthLogic.js`.  The argument
`alternativeMoment` is `none` for a falsy value; its deltas are read directly
from its keys `energy`, `glucoseStress`, `insulinWorkload` and
`adherenceMomentum`.  The products by 1.5, 0.7 and 0.6 are exact here; the
source takes them in binary floating point. -/
def simulateWhatIfTwin (currentState : HealthState) (alternativeMoment : Option ImpactVector) :
    HealthState :=
  match alternativeMoment with
  | none => currentState
  | some alternative =>
    let improved := applyMomentImpact currentState (some (impactOnly
      { energy := some (orDefault alternative.energy 0 * 1.5)
        glucoseStress := some (orDefault alternative.glucoseStress 0 * 0.7)
        insulinWorkload := some (orDefault alternative.insulinWorkload 0 * 0.6)
        adherenceMomentum := some (orDefault alternative.adherenceMomentum 10 + 15) }))
    improved

/-- A moment with its `date` property.  A calendar day is an integer day number
and its ISO string `YYYY-MM-DD` stands for it; `date` is `none` when the
property is absent or is not such a string. -/
structure DatedMoment extends Moment where
  date : Option Int
deriving DecidableEq

/-- The predicate passed to `moments.some` in `calculateStreak`:
`m.date === dateStr && m.type === type && (m.intensity === "low" ||
m.intensity === "moderate" || m.intensity === "positive")`. -/
def isGoodMoment (dateStr : Int) (type : String) (m : DatedMoment) : Bool :=
  decide (m.date = some dateStr) && m.type == type &&
    (m.intensity == "low" || m.intensity == "moderate" || m.intensity == "positive")

/-- The time zone of the host as `Date` uses it: the offset of local time from
UTC, in milliseconds, at a UTC time value (`LocalTZA(t, true)` of ECMAScript)
and at a local time value (`LocalTZA(t, false)`). -/
structure TimeZone where
  offsetAtUtc : Int → Int
  offsetAtLocal : Int → Int

/-- The number of milliseconds of a day. -/
def msPerDay : Int := 86400000

/-- The expression `checkDate.toISOString().split("T")[0]`: the UTC calendar
day of a time value, as a day number (days since 1970-01-01). -/
def isoDate (t : Int) : Int := t / msPerDay

/-- The statement `checkDate.setDate(checkDate.getDate() - 1)`: the time value
is taken to local time, the local calendar day goes back by one with the local
time of day kept, and the result is taken back to UTC. -/
def setDatePrevious (tz : TimeZone) (t : Int) : Int :=
  let localTime := t + tz.offsetAtUtc t
  let newDate := localTime - msPerDay
  newDate - tz.offsetAtLocal newDate

/-- The `for` loop of `calculateStreak`, by the number of iterations left
(`days - i`), with the loop variables `checkDate` (a time value) and
`streak`. -/
def streakLoop (tz : TimeZone) (moments : List DatedMoment) (type : String) :
    Nat → Int → Nat → Nat
  | 0, _, streak => streak
  | left + 1, checkDate, streak =>
    if moments.any (isGoodMoment (isoDate checkDate) type) then
      streakLoop tz moments type left (setDatePrevious tz checkDate) (streak + 1)
    else streak

/-- The function `calculateStreak` of `healthLogic.js`.  What it reads from its
environment is explicit: the time zone `tz` of the host and the time value
`now` of `new Date()`, in milliseconds since the epoch.  `moments` is `none`
for a falsy value; `days` is the number of days of the window (the default 7
is supplied by the caller). -/
def calculateStreak (tz : TimeZone) (now : Int) (moments : Option (List DatedMoment))
    (type : String) (days : Nat) : Nat :=
  match moments with
  | none => 0
  | some ms =>
    if ms.length = 0 then 0
    else
      let today := now
      streakLoop tz ms type days today 0

/-! ## `healthLogic.js`: the baseline score -/

/-- The call `Math.round(x)`: the nearest integer, a half rounded up. -/
def mathRound (x : ℚ) : ℤ := ⌊x + 1 / 2⌋

/-- The function `calculateHealthScore` of `healthLogic.js`. -/
def calculateHealthScore (healthState : HealthState) : ℤ :=
  let energyWeight : ℚ := 0.2
  let glucoseWeight : ℚ := 0.3
  let insulinWeight : ℚ := 0.25
  let momentumWeight : ℚ := 0.25
  let score :=
    orDefault healthState.energy 50 * energyWeight +
    (100 - orDefault healthState.glucoseStress 50) * glucoseWeight +
    (100 - orDefault healthState.insulinWorkload 50) * insulinWeight +
    orDefault healthState.adherenceMomentum 50 * momentumWeight
  mathRound score

/-! ## `geminiService.js`: the rate limiter -/

/-- The loop `while (apiCallTimestamps.length > 10) apiCallTimestamps.shift()`. -/
def shiftWhileOver10 : List Int → List Int
  | [] => []
  | t :: ts => if (t :: ts).length > 10 then shiftWhileOver10 ts else t :: ts

/-- The function `isRateLimited` of `geminiService.js` as a step of a state
machine: the module variable `apiCallTimestamps` (oldest first) and the value
`now` of `Date.now()` go in, the returned boolean and the new
`apiCallTimestamps` come out. -/
def isRateLimited (apiCallTimestamps : List Int) (now : Int) : Bool × List Int :=
  let recentCalls := apiCallTimestamps.filter (fun t => decide (now - t < 2000))
  if recentCalls.length ≥ 2 then (true, apiCallTimestamps)
  else (false, shiftWhileOver10 (apiCallTimestamps ++ [now]))

/-! ## `DashboardOverview.jsx`: the status of a metric -/

/-- The object returned by `getMetricStatus`; `progressColor` is absent in the
object returned for a missing value. -/
structure MetricStatus where
  color : String
  status : String
  progressColor : Option String
deriving DecidableEq

/-- The function `getMetricStatus` of `DashboardOverview.jsx`; `value` is `none`
for `null` and `undefined`. -/
def getMetricStatus (value : Option ℚ) (type : String) : MetricStatus :=
  match value with
  | none => { color := "bg-gray-100", status := "unknown", progressColor := none }
  | some value =>
    let good : ℚ := 70
    let bad : ℚ := 30
    if type == "stress" || type == "glucose" then
      { color :=
          if value > bad then "bg-red-100 text-red-700"
          else if value > 40 then "bg-yellow-100 text-yellow-700"
          else "bg-green-100 text-green-700"
        status := if value > bad then "Critical" else if value > 40 then "Caution" else "Good"
        progressColor :=
          some (if value > bad then "bg-red-500" else if value > 40 then "bg-yellow-500"
            else "bg-green-500") }
    else
      { color :=
          if value > good then "bg-green-100 text-green-700"
          else if value > 40 then "bg-yellow-100 text-yellow-700"
          else "bg-red-100 text-red-700"
        status := if value > good then "Excellent" else if value > 40 then "Fair" else "Low"
        progressColor :=
          some (if value > good then "bg-green-500" else if value > 40 then "bg-yellow-500"
            else "bg-red-500") }

/-! ## Vocabulary of the statements -/

/-- A metric is present and lies in the closed interval `[0, 100]`. -/
def InRange (x : Option ℚ) : Prop := ∃ v : ℚ, x = some v ∧ 0 ≤ v ∧ v ≤ 100

/-- The operator `x ?? d`: the default is taken only for an absent `x`. -/
def nullish (x : Option ℚ) (d : ℚ) : ℚ :=
  match x with
  | some v => v
  | none => d

/-- The reference formula of the State Accumulator in the specification's
words: `next[m] = clamp(0, 100, (state[m] ?? 50) + (impact[m] ?? 0))`, every
delta read under the metric's own name. -/
def accumulatorReference (S : HealthState) (I : ImpactVector) : HealthState :=
  { energy := some (clamp100 (nullish S.energy 50 + nullish I.energy 0))
    glucoseStress := some (clamp100 (nullish S.glucoseStress 50 + nullish I.glucoseStress 0))
    insulinWorkload := some (clamp100 (nullish S.insulinWorkload 50 + nullish I.insulinWorkload 0))
    adherenceMomentum :=
      some (clamp100 (nullish S.adherenceMomentum 50 + nullish I.adherenceMomentum 0))
    stressLevel := some (clamp100 (nullish S.stressLevel 50 + nullish I.stressLevel 0)) }

/-- The reference formula with the delta of `stressLevel` read under the key
`stress`, the key the impact tables use. -/
def accumulatorStressKeyed (S : HealthState) (I : ImpactVector) : HealthState :=
  { energy := some (clamp100 (nullish S.energy 50 + nullish I.energy 0))
    glucoseStress := some (clamp100 (nullish S.glucoseStress 50 + nullish I.glucoseStress 0))
    insulinWorkload := some (clamp100 (nullish S.insulinWorkload 50 + nullish I.insulinWorkload 0))
    adherenceMomentum :=
      some (clamp100 (nullish S.adherenceMomentum 50 + nullish I.adherenceMomentum 0))
    stressLevel := some (clamp100 (nullish S.stressLevel 50 + nullish I.stress 0)) }

/-- The composite score in the specification's words:
`0.25*energy + 0.25*(100-glucoseStress) + 0.25*(100-insulinWorkload) + 0.25*adherenceMomentum`. -/
def specScore (e g i a : ℚ) : ℚ := 0.25 * e + 0.25 * (100 - g) + 0.25 * (100 - i) + 0.25 * a

/-- The ordered decision list of the specification for a state with numeric
metrics `e` (energy), `g` (glucoseStress), `i` (insulinWorkload),
`a` (adherenceMomentum) and `s` (stressLevel): rules 1 to 10 as
(predicate, category) pairs. -/
def avatarRules (e g i a s : ℚ) : List (Bool × AvatarCategory) :=
  [ (decide (e < 25 ∧ s > 70), .stressed),
    (decide (e < 35), .tired),
    (decide (g > 75 ∨ i > 80), .struggling),
    (decide (s > 60 ∧ e < 50), .struggling),
    (decide (specScore e g i a > 75), .energized),
    (decide (e > 70 ∧ a > 70), .energized),
    (decide (e > 50 ∧ g < 50 ∧ s < 50), .balanced),
    (decide (specScore e g i a > 50), .balanced),
    (decide (specScore e g i a > 40 ∧ a > 50), .recovering),
    (true, .balanced) ]

/-- First-match evaluation of a decision list: the category of the first rule
whose predicate holds. -/
def firstMatch : List (Bool × AvatarCategory) → Option AvatarCategory
  | [] => none
  | (c, r) :: rest => if c then some r else firstMatch rest

/-- The window holds a moment of the given type and intensity. -/
def HasMoment (ms : List Moment) (t i : String) : Prop :=
  ∃ m ∈ ms, m.type = t ∧ m.intensity = i

/-- The triple-hit condition of the specification: the window is present and
holds a sleep/poor, a stress/high and a diet/high moment. -/
def TripleHit (W : Option (List Moment)) : Prop :=
  ∃ ms, W = some ms ∧ HasMoment ms "sleep" "poor" ∧ HasMoment ms "stress" "high" ∧
    HasMoment ms "diet" "high"

/-- The average of the trend rule in the specification's words:
`(energy + (100 - glucoseStress) + (100 - insulinWorkload)) / 3`, exactly. -/
def specAvg (e g i : ℚ) : ℚ := (e + (100 - g) + (100 - i)) / 3

/-- A day counts for the streak, in the specification's words: the list is
present and some moment dated exactly `day` has the given type and an
intensity among low, moderate and positive. -/
def Qualifies (moments : Option (List DatedMoment)) (type : String) (day : Int) : Prop :=
  ∃ ms, moments = some ms ∧ ∃ m ∈ ms, m.date = some day ∧ m.type = type ∧
    (m.intensity = "low" ∨ m.intensity = "moderate" ∨ m.intensity = "positive")

/-- The momentum of the twin simulator in the specification's words: the
fixed bonus 15 added to the alternative's own momentum delta, an absent delta
counted as 0: `clamp(0, 100, s + (A.adherenceMomentum ?? 0) + 15)`. -/
def momentumReference (s : ℚ) (A : ImpactVector) : ℚ :=
  clamp100 (s + nullish A.adherenceMomentum 0 + 15)

/-- The what-if vector `w` is at least as favourable as the real vector `r` on
every metric, absent entries counted as 0: energy and adherenceMomentum deltas
at least the real ones, stress, glucoseStress and insulinWorkload deltas at
most the real ones. -/
def AtLeastAsFavourable (w r : ImpactVector) : Prop :=
  nullish r.energy 0 ≤ nullish w.energy 0 ∧
  nullish r.adherenceMomentum 0 ≤ nullish w.adherenceMomentum 0 ∧
  nullish w.stress 0 ≤ nullish r.stress 0 ∧
  nullish w.glucoseStress 0 ≤ nullish r.glucoseStress 0 ∧
  nullish w.insulinWorkload 0 ≤ nullish r.insulinWorkload 0

/-- The state with every absent metric set to 50 (the state `S'` of the
specification's rule "absent field implies default 50"). -/
def fill50 (S : HealthState) : HealthState :=
  { energy := some (nullish S.energy 50)
    glucoseStress := some (nullish S.glucoseStress 50)
    insulinWorkload := some (nullish S.insulinWorkload 50)
    adherenceMomentum := some (nullish S.adherenceMomentum 50)
    stressLevel := some (nullish S.stressLevel 50) }

/-- The rules of the specification's decision list that do not read the
composite score: rules 1, 2, 3, 4, 6 and 7 and the default 10. -/
def avatarRulesNoScore (e g i a s : ℚ) : List (Bool × AvatarCategory) :=
  [ (decide (e < 25 ∧ s > 70), .stressed),
    (decide (e < 35), .tired),
    (decide (g > 75 ∨ i > 80), .struggling),
    (decide (s > 60 ∧ e < 50), .struggling),
    (decide (e > 70 ∧ a > 70), .energized),
    (decide (e > 50 ∧ g < 50 ∧ s < 50), .balanced),
    (true, .balanced) ]

/-- The four metrics of the composite score are all present. -/
def ScoreDefined (S : HealthState) : Prop :=
  S.energy.isSome = true ∧ S.glucoseStress.isSome = true ∧ S.insulinWorkload.isSome = true ∧
    S.adherenceMomentum.isSome = true

/-- A metric is present and is an integer. -/
def IsInteger (x : Option ℚ) : Prop := ∃ n : ℤ, x = some (n : ℚ)

/-- A run of the rate limiter: the clock values of the admitted calls (those
for which `isRateLimited` returns false), in call order, when the calls are
made at the clock values `calls` from the timestamp list `ts`. -/
def admittedCalls : List Int → List Int → List Int
  | _, [] => []
  | ts, now :: rest =>
    if (isRateLimited ts now).1 then admittedCalls (isRateLimited ts now).2 rest
    else now :: admittedCalls (isRateLimited ts now).2 rest

/-- No three calls of the list, in list order, lie less than 2000 ms apart. -/
def Spaced (l : List Int) : Prop :=
  ∀ t1 t2 t3 : Int, [t1, t2, t3].Sublist l → 2000 ≤ t3 - t1

/-- The stored list `ts` is the end of the history `hist` of admitted calls,
and it holds the last two admitted calls as soon as something was dropped. -/
def StoresEndOf (ts hist : List Int) : Prop :=
  ∃ pre, hist = pre ++ ts ∧ (pre = [] ∨ 2 ≤ ts.length)

/-- The walk of the specification: back from the day `day`, one day number at
a time, counting the days that qualify and stopping at the first that does
not. -/
def streakByDay (moments : List DatedMoment) (type : String) : Nat → Int → Nat → Nat
  | 0, _, streak => streak
  | left + 1, day, streak =>
    if moments.any (isGoodMoment day type) then
      streakByDay moments type left (day - 1) (streak + 1)
    else streak

/-- The streak of the specification, counted back from the day `today`. -/
def calculateStreakByDay (moments : Option (List DatedMoment)) (type : String) (days : Nat)
    (today : Int) : Nat :=
  match moments with
  | none => 0
  | some ms => if ms.length = 0 then 0 else streakByDay ms type days today 0

/-- The offset of the time zone from UTC never changes. -/
def ConstantOffset (tz : TimeZone) : Prop :=
  ∃ c : Int, ∀ t : Int, tz.offsetAtUtc t = c ∧ tz.offsetAtLocal t = c

/-- The time zone UTC. -/
def utcZone : TimeZone := { offsetAtUtc := fun _ => 0, offsetAtLocal := fun _ => 0 }

/-- Europe/London around the start of summer time in 2026: UTC up to
2026-03-29T01:00Z (time value 1774746000000), UTC+1 from then on; local times
from 02:00 of that day (1774749600000) are summer time. -/
def londonSpring2026 : TimeZone :=
  { offsetAtUtc := fun t => if 1774746000000 ≤ t then 3600000 else 0
    offsetAtLocal := fun t => if 1774749600000 ≤ t then 3600000 else 0 }

/-- America/New_York around the end of daylight time in 2026: UTC-4 up to
2026-11-01T06:00Z (time value 1793512800000), UTC-5 from then on; local times
from 02:00 of that day (1793498400000) are standard time. -/
def newYorkAutumn2026 : TimeZone :=
  { offsetAtUtc := fun t => if 1793512800000 ≤ t then -18000000 else -14400000
    offsetAtLocal := fun t => if 1793498400000 ≤ t then -18000000 else -14400000 }

/-! ## Theorems -/

theorem clamp100_nonneg (x : ℚ) : 0 ≤ clamp100 x := le_max_left 0 _

theorem clamp100_le (x : ℚ) : clamp100 x ≤ 100 :=
  max_le (by norm_num) (min_le_left 100 x)

theorem clamp100_of_mem {x : ℚ} (h0 : 0 ≤ x) (h1 : x ≤ 100) : clamp100 x = x := by
  unfold clamp100
  rw [min_eq_right h1, max_eq_right h0]

theorem inRange_clamp100 (x : ℚ) : InRange (some (clamp100 x)) :=
  ⟨clamp100 x, rfl, clamp100_nonneg x, clamp100_le x⟩

/-- C1: whatever the state holds (numbers in or out of range, absent metrics),
applying a moment that carries an impact vector yields a state whose five
metrics are all present and lie in `[0, 100]`. -/
theorem applyMomentImpact_clamped (S : HealthState) (m : Moment) (I : ImpactVector)
    (hI : m.impact = some I) :
    InRange (applyMomentImpact S (some m)).energy ∧
    InRange (applyMomentImpact S (some m)).glucoseStress ∧
    InRange (applyMomentImpact S (some m)).insulinWorkload ∧
    InRange (applyMomentImpact S (some m)).adherenceMomentum ∧
    InRange (applyMomentImpact S (some m)).stressLevel := by
  simp only [applyMomentImpact, hI]
  exact ⟨inRange_clamp100 _, inRange_clamp100 _, inRange_clamp100 _, inRange_clamp100 _,
    inRange_clamp100 _⟩

/-- C1, at a concrete input: an out-of-range state with an absent metric and a
large impact. -/
theorem applyMomentImpact_clamped_witness :
    InRange (applyMomentImpact ⟨some 250, some (-40), none, some 0, some 100⟩
      (some ⟨"diet", "high", some { energy := some 1000, stress := some (-500) }⟩)).energy ∧
    InRange (applyMomentImpact ⟨some 250, some (-40), none, some 0, some 100⟩
      (some ⟨"diet", "high", some { energy := some 1000, stress := some (-500) }⟩)).glucoseStress ∧
    InRange (applyMomentImpact ⟨some 250, some (-40), none, some 0, some 100⟩
      (some ⟨"diet", "high", some { energy := some 1000, stress := some (-500) }⟩)).insulinWorkload ∧
    InRange (applyMomentImpact ⟨some 250, some (-40), none, some 0, some 100⟩
      (some ⟨"diet", "high", some { energy := some 1000, stress := some (-500) }⟩)).adherenceMomentum ∧
    InRange (applyMomentImpact ⟨some 250, some (-40), none, some 0, some 100⟩
      (some ⟨"diet", "high", some { energy := some 1000, stress := some (-500) }⟩)).stressLevel :=
  applyMomentImpact_clamped _ _ { energy := some 1000, stress := some (-500) } rfl

/-! ### The State Accumulator -/

theorem orDefault_zero (x : Option ℚ) : orDefault x 0 = nullish x 0 := by
  cases x with
  | none => rfl
  | some v =>
    by_cases h : v = 0
    · simp [orDefault, nullish, h]
    · simp [orDefault, nullish, h]

theorem orDefault_of_ne_zero {x : Option ℚ} (d : ℚ) (h : x ≠ some 0) :
    orDefault x d = nullish x d := by
  cases x with
  | none => rfl
  | some v =>
    have hv : v ≠ 0 := fun hv => h (by rw [hv])
    simp [orDefault, nullish, hv]

/-- C2, counterexample: on the state with every metric at 50 and the impact
`{ stress: 30 }`, the code moves `stressLevel` to 80, while the reference
formula, which reads the delta under the key `stressLevel`, leaves it at 50. -/
theorem applyMomentImpact_ne_reference :
    (applyMomentImpact ⟨some 50, some 50, some 50, some 50, some 50⟩
        (some ⟨"stress", "high", some { stress := some 30 }⟩)).stressLevel = some 80 ∧
    (accumulatorReference ⟨some 50, some 50, some 50, some 50, some 50⟩
        { stress := some 30 }).stressLevel = some 50 ∧
    applyMomentImpact ⟨some 50, some 50, some 50, some 50, some 50⟩
        (some ⟨"stress", "high", some { stress := some 30 }⟩) ≠
      accumulatorReference ⟨some 50, some 50, some 50, some 50, some 50⟩ { stress := some 30 } := by
  have h1 : (applyMomentImpact ⟨some 50, some 50, some 50, some 50, some 50⟩
      (some ⟨"stress", "high", some { stress := some 30 }⟩)).stressLevel = some 80 := by
    simp only [applyMomentImpact, orDefault, clamp100]
    norm_num
  have h2 : (accumulatorReference ⟨some 50, some 50, some 50, some 50, some 50⟩
      { stress := some 30 }).stressLevel = some 50 := by
    simp only [accumulatorReference, nullish, clamp100]
    norm_num
  refine ⟨h1, h2, fun h => ?_⟩
  rw [h, h2] at h1
  norm_num at h1

/-- C2, amended: for a state none of whose metrics is a present 0 and a moment
with impact vector `I`, the result is, metric by metric,
`clamp(0, 100, (S[m] ?? 50) + (I[k] ?? 0))`, where the key `k` is the metric's
own name for the first four metrics and `stress` for `stressLevel`. -/
theorem applyMomentImpact_formula (S : HealthState) (m : Moment) (I : ImpactVector)
    (hI : m.impact = some I)
    (he : S.energy ≠ some 0) (hg : S.glucoseStress ≠ some 0) (hi : S.insulinWorkload ≠ some 0)
    (ha : S.adherenceMomentum ≠ some 0) (hs : S.stressLevel ≠ some 0) :
    applyMomentImpact S (some m) = accumulatorStressKeyed S I := by
  simp only [applyMomentImpact, hI, accumulatorStressKeyed, orDefault_zero,
    orDefault_of_ne_zero 50 he, orDefault_of_ne_zero 50 hg, orDefault_of_ne_zero 50 hi,
    orDefault_of_ne_zero 50 ha, orDefault_of_ne_zero 50 hs]

/-- C2, amended, at a concrete input: a state with an absent metric and the
impact of a sleep/poor moment. -/
theorem applyMomentImpact_formula_witness :
    applyMomentImpact ⟨some 60, none, some 100, some 5, some 95⟩
        (some ⟨"sleep", "poor",
          some { energy := some (-25), stress := some 15, glucoseStress := some 10 }⟩) =
      accumulatorStressKeyed ⟨some 60, none, some 100, some 5, some 95⟩
        { energy := some (-25), stress := some 15, glucoseStress := some 10 } :=
  applyMomentImpact_formula _ _ _ rfl (by simp) (by simp) (by simp) (by simp) (by simp)

/-- C3, the failing input: with `energy` at 0 and the other metrics at 50,
applying a moment whose impact is `{}` returns `energy` 50, so the result is
not the input state. -/
theorem applyMomentImpact_empty_zero_energy :
    (applyMomentImpact ⟨some 0, some 50, some 50, some 50, some 50⟩
        (some ⟨"sleep", "moderate", some emptyImpact⟩)).energy = some 50 ∧
    applyMomentImpact ⟨some 0, some 50, some 50, some 50, some 50⟩
        (some ⟨"sleep", "moderate", some emptyImpact⟩) ≠
      ⟨some 0, some 50, some 50, some 50, some 50⟩ := by
  have h1 : (applyMomentImpact ⟨some 0, some 50, some 50, some 50, some 50⟩
      (some ⟨"sleep", "moderate", some emptyImpact⟩)).energy = some 50 := by
    simp only [applyMomentImpact, orDefault, clamp100, emptyImpact]
    norm_num
  refine ⟨h1, fun h => ?_⟩
  rw [h] at h1
  norm_num at h1

/-! ### The Avatar Classifier -/

theorem healthScore_numeric (e g i a : ℚ) (s : Option ℚ) :
    healthScore ⟨some e, some g, some i, some a, s⟩ = some (specScore e g i a) := by
  simp only [healthScore, jsArith, specScore]
  congr 1
  ring

/-- C4: on every state with five numeric metrics, `mapHealthToAvatarState`
returns the category of the first matching rule of the specification's ordered
decision list (rules 1 to 10, with the composite score of rule 5). -/
theorem mapHealthToAvatarState_firstMatch (e g i a s : ℚ) :
    firstMatch (avatarRules e g i a s) =
      some (mapHealthToAvatarState ⟨some e, some g, some i, some a, some s⟩) := by
  simp only [mapHealthToAvatarState, healthScore_numeric, avatarRules, firstMatch, jsLt, jsGt,
    gt_iff_lt, Bool.and_eq_true, Bool.or_eq_true, decide_eq_true_eq, Bool.decide_and,
    Bool.decide_or, if_true, and_assoc,
    apply_ite (some : AvatarCategory → Option AvatarCategory)]

/-- C5: a state with `energy < 25` and `stressLevel > 70` is classified as
stressed, whatever its glucoseStress, insulinWorkload and adherenceMomentum
are (present or not). -/
theorem mapHealthToAvatarState_stressed (S : HealthState) (e s : ℚ)
    (hE : S.energy = some e) (hS : S.stressLevel = some s) (he : e < 25) (hs : 70 < s) :
    mapHealthToAvatarState S = AvatarCategory.stressed := by
  simp [mapHealthToAvatarState, hE, hS, jsLt, jsGt, he, hs]

/-- C5, at the state of the specification's example: energy 20, stressLevel 80,
glucoseStress 10, insulinWorkload 10, adherenceMomentum 90. -/
theorem mapHealthToAvatarState_stressed_witness :
    mapHealthToAvatarState ⟨some 20, some 10, some 10, some 90, some 80⟩ =
      AvatarCategory.stressed :=
  mapHealthToAvatarState_stressed _ 20 80 rfl rfl (by norm_num) (by norm_num)

/-! ### The Risk Classifier -/

theorem jsGt_some_iff (x : Option ℚ) (c : ℚ) :
    jsGt x (some c) = true ↔ ∃ v, x = some v ∧ c < v := by
  cases x with
  | none => simp [jsGt]
  | some v => simp [jsGt]

theorem jsLt_some_iff (x : Option ℚ) (c : ℚ) :
    jsLt x (some c) = true ↔ ∃ v, x = some v ∧ v < c := by
  cases x with
  | none => simp [jsLt]
  | some v => simp [jsLt]

theorem mem_pushIf (r r' : RiskFactor) (c : Bool) (risks : List RiskFactor) :
    r ∈ pushIf c r' risks ↔ r ∈ risks ∨ (c = true ∧ r = r') := by
  cases c <;> simp [pushIf]

theorem truthy_someMoment_iff (W : Option (List Moment)) (t i : String) :
    truthy (someMoment W t i) = true ↔ ∃ ms, W = some ms ∧ HasMoment ms t i := by
  cases W with
  | none => simp [someMoment, truthy]
  | some ms => simp [someMoment, truthy, HasMoment]

theorem tripleFlag_iff (W : Option (List Moment)) :
    (truthy (someMoment W "sleep" "poor") && truthy (someMoment W "stress" "high") &&
      truthy (someMoment W "diet" "high")) = true ↔ TripleHit W := by
  cases W with
  | none => simp [someMoment, truthy, TripleHit]
  | some ms => simp [someMoment, truthy, TripleHit, HasMoment, and_assoc]

theorem hasMoment_perm {ms ms' : List Moment} (h : ms.Perm ms') (t i : String) :
    HasMoment ms t i ↔ HasMoment ms' t i := by
  unfold HasMoment
  constructor
  · rintro ⟨m, hm, hti⟩
    exact ⟨m, h.mem_iff.mp hm, hti⟩
  · rintro ⟨m, hm, hti⟩
    exact ⟨m, h.mem_iff.mpr hm, hti⟩

theorem mem_identifyRiskFactors_tripleHit (S : HealthState) (W : Option (List Moment)) :
    RiskFactor.triple_hit_pattern ∈ identifyRiskFactors S W ↔ TripleHit W := by
  simp only [identifyRiskFactors, mem_pushIf, tripleFlag_iff]
  simp

/-- C6: each of the five threshold factors is in the result exactly when its
own metric is present and beyond its threshold, whatever the other metrics and
the window are; and on the state glucoseStress 75, stressLevel 40, energy 60,
insulinWorkload 50, adherenceMomentum 60 with a window that has no triple hit
the result is exactly `[high_glucose_stress]`. -/
theorem identifyRiskFactors_thresholds (S : HealthState) (W : Option (List Moment)) :
    (RiskFactor.high_glucose_stress ∈ identifyRiskFactors S W ↔
      ∃ v, S.glucoseStress = some v ∧ 70 < v) ∧
    (RiskFactor.high_stress ∈ identifyRiskFactors S W ↔ ∃ v, S.stressLevel = some v ∧ 75 < v) ∧
    (RiskFactor.low_energy ∈ identifyRiskFactors S W ↔ ∃ v, S.energy = some v ∧ v < 30) ∧
    (RiskFactor.pancreas_overload ∈ identifyRiskFactors S W ↔
      ∃ v, S.insulinWorkload = some v ∧ 80 < v) ∧
    (RiskFactor.losing_momentum ∈ identifyRiskFactors S W ↔
      ∃ v, S.adherenceMomentum = some v ∧ v < 30) ∧
    (¬ TripleHit W →
      identifyRiskFactors ⟨some 60, some 75, some 50, some 60, some 40⟩ W =
        [RiskFactor.high_glucose_stress]) := by
  refine ⟨?_, ?_, ?_, ?_, ?_, ?_⟩
  · simp only [identifyRiskFactors, mem_pushIf, ← jsGt_some_iff]
    simp
  · simp only [identifyRiskFactors, mem_pushIf, ← jsGt_some_iff]
    simp
  · simp only [identifyRiskFactors, mem_pushIf, ← jsLt_some_iff]
    simp
  · simp only [identifyRiskFactors, mem_pushIf, ← jsGt_some_iff]
    simp
  · simp only [identifyRiskFactors, mem_pushIf, ← jsLt_some_iff]
    simp
  · intro h
    have hflag : (truthy (someMoment W "sleep" "poor") &&
        truthy (someMoment W "stress" "high") && truthy (someMoment W "diet" "high")) = false := by
      rw [← Bool.not_eq_true, tripleFlag_iff]
      exact h
    simp only [identifyRiskFactors, hflag, jsGt, jsLt, pushIf]
    norm_num

/-- C6, on the empty window: the five equivalences hold there and the example
state yields exactly `[high_glucose_stress]`. -/
theorem identifyRiskFactors_thresholds_witness :
    identifyRiskFactors ⟨some 60, some 75, some 50, some 60, some 40⟩ (some []) =
      [RiskFactor.high_glucose_stress] :=
  (identifyRiskFactors_thresholds ⟨some 60, some 75, some 50, some 60, some 40⟩
    (some [])).2.2.2.2.2 (by simp [TripleHit, HasMoment])

/-- C7: `triple_hit_pattern` is in the result exactly when the window is
present and holds a sleep/poor, a stress/high and a diet/high moment; this
depends neither on the state nor on the order of the window, and an empty or
absent window never yields it. -/
theorem identifyRiskFactors_tripleHit (S : HealthState) (W : Option (List Moment)) :
    (RiskFactor.triple_hit_pattern ∈ identifyRiskFactors S W ↔ TripleHit W) ∧
    (∀ (S' : HealthState) (ms ms' : List Moment), ms.Perm ms' →
      (RiskFactor.triple_hit_pattern ∈ identifyRiskFactors S (some ms) ↔
        RiskFactor.triple_hit_pattern ∈ identifyRiskFactors S' (some ms'))) ∧
    RiskFactor.triple_hit_pattern ∉ identifyRiskFactors S (some []) ∧
    RiskFactor.triple_hit_pattern ∉ identifyRiskFactors S none := by
  refine ⟨mem_identifyRiskFactors_tripleHit S W, ?_, ?_, ?_⟩
  · intro S' ms ms' h
    rw [mem_identifyRiskFactors_tripleHit, mem_identifyRiskFactors_tripleHit]
    simp only [TripleHit, Option.some.injEq, exists_eq_left']
    rw [hasMoment_perm h "sleep" "poor", hasMoment_perm h "stress" "high",
      hasMoment_perm h "diet" "high"]
  · rw [mem_identifyRiskFactors_tripleHit]
    simp [TripleHit, HasMoment]
  · rw [mem_identifyRiskFactors_tripleHit]
    simp [TripleHit]

/-- C7, on a concrete window: the three moments in one order give the pattern,
and so does the reversed window under another state. -/
theorem identifyRiskFactors_tripleHit_witness :
    RiskFactor.triple_hit_pattern ∈
        identifyRiskFactors ⟨some 50, some 50, some 50, some 50, some 50⟩
          (some [⟨"diet", "high", none⟩, ⟨"sleep", "poor", none⟩, ⟨"stress", "high", none⟩]) ∧
    (RiskFactor.triple_hit_pattern ∈
        identifyRiskFactors ⟨some 50, some 50, some 50, some 50, some 50⟩
          (some [⟨"diet", "high", none⟩, ⟨"sleep", "poor", none⟩, ⟨"stress", "high", none⟩]) ↔
      RiskFactor.triple_hit_pattern ∈
        identifyRiskFactors ⟨none, some 90, some 10, none, some 0⟩
          (some [⟨"stress", "high", none⟩, ⟨"sleep", "poor", none⟩, ⟨"diet", "high", none⟩])) :=
  ⟨(identifyRiskFactors_tripleHit _ _).1.mpr
      ⟨_, rfl, ⟨⟨"sleep", "poor", none⟩, by simp, rfl, rfl⟩,
        ⟨⟨"stress", "high", none⟩, by simp, rfl, rfl⟩,
        ⟨⟨"diet", "high", none⟩, by simp, rfl, rfl⟩⟩,
    (identifyRiskFactors_tripleHit _ (some [])).2.1 _ _ _
      (List.reverse_perm [Moment.mk "stress" "high" none, Moment.mk "sleep" "poor" none,
        Moment.mk "diet" "high" none])⟩

/-! ### The Impact Resolver -/

theorem lookup_eq_none_of_any_false {α : Type} (row : List (String × α)) (k : String)
    (h : row.any (fun cell => cell.1 == k) = false) : row.lookup k = none := by
  induction row with
  | nil => rfl
  | cons cell rest ih =>
    obtain ⟨k', v⟩ := cell
    simp only [List.any_cons, Bool.or_eq_false_iff, beq_eq_false_iff_ne, ne_eq] at h
    have hk : (k == k') = false := by
      rw [beq_eq_false_iff_ne]
      exact fun e => h.1 e.symm
    simp only [List.lookup, hk]
    exact ih h.2

theorem lookupOrEmpty_of_not_hasEntry (table : ImpactTable) (t i : String)
    (h : hasEntry table t i = false) : lookupOrEmpty table t i = emptyImpact := by
  induction table with
  | nil => rfl
  | cons entry rest ih =>
    obtain ⟨k, row⟩ := entry
    simp only [hasEntry, List.any_cons, Bool.or_eq_false_iff, Bool.and_eq_false_iff,
      beq_eq_false_iff_ne, ne_eq] at h
    by_cases hk : k = t
    · subst hk
      have hrow : row.lookup i = none := by
        apply lookup_eq_none_of_any_false
        rcases h.1 with h1 | h1
        · exact absurd rfl h1
        · exact h1
      simp [lookupOrEmpty, List.lookup, hrow]
    · have hk' : (t == k) = false := by
        rw [beq_eq_false_iff_ne]
        exact fun e => hk e.symm
      have hrest : lookupOrEmpty rest t i = emptyImpact := ih h.2
      simp only [lookupOrEmpty, List.lookup, hk'] at hrest ⊢
      exact hrest

theorem lookupValue_eq_lookupOrEmpty (table : ImpactTable) (t i : String)
    (ht : t ∉ objectPrototypeKeys) (hi : i ∉ objectPrototypeKeys) :
    lookupValue table t i = Resolved.vector (lookupOrEmpty table t i) := by
  cases h1 : table.lookup t with
  | none => simp only [lookupValue, lookupOrEmpty, h1, ht, if_false]
  | some row =>
    cases h2 : row.lookup i with
    | none => simp only [lookupValue, lookupOrEmpty, h1, h2, hi, if_false]
    | some v => simp only [lookupValue, lookupOrEmpty, h1, h2]

theorem lookupValue_of_unknown_type (table : ImpactTable) (t i : String)
    (ht : t ∉ objectPrototypeKeys) (hkey : t ∉ table.map Prod.fst) :
    lookupValue table t i = Resolved.vector emptyImpact := by
  have hnone : table.lookup t = none := by
    apply lookup_eq_none_of_any_false
    simp only [List.any_eq_false, beq_iff_eq]
    intro entry hmem hk
    exact hkey (List.mem_map.mpr ⟨entry, hmem, hk⟩)
  simp only [lookupValue, hnone, ht, if_false]

/-- C8, counterexample: the pair (constructor, name) has no entry in
`impactMap` nor in the what-if table, and constructor is no key of either, yet
the expression `table[type]?.[intensity] || {}` yields the string `"Object"`
(the name of the inherited `constructor`), not the empty vector. -/
theorem lookup_miss_inherited :
    hasEntry impactMap "constructor" "name" = false ∧
    "constructor" ∉ impactMap.map Prod.fst ∧
    lookupValue impactMap "constructor" "name" = Resolved.str "Object" ∧
    lookupValue impactMap "constructor" "name" ≠ Resolved.vector emptyImpact ∧
    hasEntry scenarios "constructor" "name" = false ∧
    lookupValue scenarios "constructor" "name" = Resolved.str "Object" ∧
    lookupValue scenarios "constructor" "name" ≠ Resolved.vector emptyImpact := by
  have h1 : lookupValue impactMap "constructor" "name" = Resolved.str "Object" := by decide
  have h2 : lookupValue scenarios "constructor" "name" = Resolved.str "Object" := by decide
  refine ⟨by decide, by decide, h1, ?_, by decide, h2, ?_⟩
  · rw [h1]
    exact fun h => Resolved.noConfusion h
  · rw [h2]
    exact fun h => Resolved.noConfusion h

/-- C8, amended: for a type that names no property inherited from
`Object.prototype`, the expression `table[type]?.[intensity] || {}` yields the
empty vector when the type is no key of the table, whatever the intensity, and
when the pair has no entry and the intensity names no inherited property
either; this for `impactMap` and for the what-if table.  The lookup is a total
function there. -/
theorem lookup_miss_empty (t i : String) (ht : t ∉ objectPrototypeKeys) :
    (hasEntry impactMap t i = false → i ∉ objectPrototypeKeys →
      lookupValue impactMap t i = Resolved.vector emptyImpact) ∧
    (hasEntry scenarios t i = false → i ∉ objectPrototypeKeys →
      lookupValue scenarios t i = Resolved.vector emptyImpact) ∧
    (t ∉ impactMap.map Prod.fst → lookupValue impactMap t i = Resolved.vector emptyImpact) ∧
    (t ∉ scenarios.map Prod.fst → lookupValue scenarios t i = Resolved.vector emptyImpact) := by
  refine ⟨fun h hi => ?_, fun h hi => ?_, lookupValue_of_unknown_type impactMap t i ht,
    lookupValue_of_unknown_type scenarios t i ht⟩
  · rw [lookupValue_eq_lookupOrEmpty impactMap t i ht hi,
      lookupOrEmpty_of_not_hasEntry impactMap t i h]
  · rw [lookupValue_eq_lookupOrEmpty scenarios t i ht hi,
      lookupOrEmpty_of_not_hasEntry scenarios t i h]

/-- C8, amended, at concrete pairs: sleep/moderate (known type, intensity
without an entry) misses both tables, and yoga/constructor, whose type is
unknown, yields the empty vector as well. -/
theorem lookup_miss_empty_witness :
    lookupValue impactMap "sleep" "moderate" = Resolved.vector emptyImpact ∧
    lookupValue scenarios "sleep" "moderate" = Resolved.vector emptyImpact ∧
    lookupValue impactMap "yoga" "constructor" = Resolved.vector emptyImpact :=
  ⟨(lookup_miss_empty "sleep" "moderate" (by decide)).1 (by decide) (by decide),
    (lookup_miss_empty "sleep" "moderate" (by decide)).2.1 (by decide) (by decide),
    (lookup_miss_empty "yoga" "constructor" (by decide)).2.2.1 (by decide)⟩

/-! ### The Trend Analyzer -/

theorem trendAvg_numeric (e g i : ℚ) (a s : Option ℚ) :
    trendAvg ⟨some e, some g, some i, a, s⟩ = some (specAvg e g i) := by
  simp only [trendAvg, jsArith, specAvg]

theorem calculateTrend_of_avg {prev curr : HealthState} {p c : ℚ}
    (hp : trendAvg prev = some p) (hc : trendAvg curr = some c) :
    calculateTrend prev curr =
      if p + 5 < c then Trend.improving else if c < p - 5 then Trend.declining
      else Trend.stable := by
  simp only [calculateTrend, hp, hc, jsArith, jsGt, jsLt, gt_iff_lt, decide_eq_true_eq]

/-- With the averages computed as exact rationals, the trend of two snapshots
with numeric energy, glucoseStress and insulinWorkload is improving iff
`avg curr > avg prev + 5`, declining iff `avg curr < avg prev - 5` and stable
otherwise; a difference of exactly +5 or -5 is stable, and averages 50 and 56.1
give improving.  The statement is about the rational model only: the source
divides by 3 in binary floating point, and at a difference of exactly 5 the
rounded quotients can compare either way. -/
theorem calculateTrend_band (pe pg pi ce cg ci : ℚ) (pa ps ca cs : Option ℚ) :
    (calculateTrend ⟨some pe, some pg, some pi, pa, ps⟩ ⟨some ce, some cg, some ci, ca, cs⟩ =
        Trend.improving ↔ specAvg ce cg ci > specAvg pe pg pi + 5) ∧
    (calculateTrend ⟨some pe, some pg, some pi, pa, ps⟩ ⟨some ce, some cg, some ci, ca, cs⟩ =
        Trend.declining ↔ specAvg ce cg ci < specAvg pe pg pi - 5) ∧
    (calculateTrend ⟨some pe, some pg, some pi, pa, ps⟩ ⟨some ce, some cg, some ci, ca, cs⟩ =
        Trend.stable ↔
      ¬ specAvg ce cg ci > specAvg pe pg pi + 5 ∧ ¬ specAvg ce cg ci < specAvg pe pg pi - 5) ∧
    (specAvg ce cg ci = specAvg pe pg pi + 5 →
      calculateTrend ⟨some pe, some pg, some pi, pa, ps⟩ ⟨some ce, some cg, some ci, ca, cs⟩ =
        Trend.stable) ∧
    (specAvg ce cg ci = specAvg pe pg pi - 5 →
      calculateTrend ⟨some pe, some pg, some pi, pa, ps⟩ ⟨some ce, some cg, some ci, ca, cs⟩ =
        Trend.stable) ∧
    (specAvg pe pg pi = 50 → specAvg ce cg ci = 56.1 →
      calculateTrend ⟨some pe, some pg, some pi, pa, ps⟩ ⟨some ce, some cg, some ci, ca, cs⟩ =
        Trend.improving) := by
  rw [calculateTrend_of_avg (trendAvg_numeric pe pg pi pa ps) (trendAvg_numeric ce cg ci ca cs)]
  generalize specAvg pe pg pi = p
  generalize specAvg ce cg ci = c
  refine ⟨?_, ?_, ?_, ?_, ?_, ?_⟩
  · by_cases h1 : p + 5 < c
    · simp [h1]
    · by_cases h2 : c < p - 5 <;> simp [h1, h2]
  · by_cases h1 : p + 5 < c
    · have h2 : ¬ c < p - 5 := by linarith
      simp [h1, h2]
    · by_cases h2 : c < p - 5 <;> simp [h1, h2]
  · by_cases h1 : p + 5 < c
    · simp [h1]
    · by_cases h2 : c < p - 5 <;> simp [h1, h2]
  · intro h
    have h1 : ¬ p + 5 < c := by linarith
    have h2 : ¬ c < p - 5 := by linarith
    simp [h1, h2]
  · intro h
    have h1 : ¬ p + 5 < c := by linarith
    have h2 : ¬ c < p - 5 := by linarith
    simp [h1, h2]
  · intro hp hc
    have h1 : p + 5 < c := by rw [hp, hc]; norm_num
    simp [h1]

/-- C10, counterexample: the snapshots with energy 50 and 68 (glucoseStress and
insulinWorkload 50) have averages 50 and 56, and the trend is improving, not
stable. -/
theorem calculateTrend_50_56_not_stable :
    trendAvg ⟨some 50, some 50, some 50, some 50, some 50⟩ = some 50 ∧
    trendAvg ⟨some 68, some 50, some 50, some 50, some 50⟩ = some 56 ∧
    calculateTrend ⟨some 50, some 50, some 50, some 50, some 50⟩
        ⟨some 68, some 50, some 50, some 50, some 50⟩ ≠ Trend.stable := by
  have hp : trendAvg ⟨some 50, some 50, some 50, some 50, some 50⟩ = some 50 := by
    norm_num [trendAvg, jsArith]
  have hc : trendAvg ⟨some 68, some 50, some 50, some 50, some 50⟩ = some 56 := by
    norm_num [trendAvg, jsArith]
  refine ⟨hp, hc, ?_⟩
  rw [calculateTrend_of_avg hp hc]
  norm_num
  exact fun h => Trend.noConfusion h

/-- C10, amended: for every pair of snapshots whose averages are 50 (previous)
and 56 (current), `calculateTrend` returns improving, since 56 > 50 + 5. -/
theorem calculateTrend_50_56_improving (prev curr : HealthState)
    (hp : trendAvg prev = some 50) (hc : trendAvg curr = some 56) :
    calculateTrend prev curr = Trend.improving := by
  rw [calculateTrend_of_avg hp hc]
  norm_num

/-- C10, amended, at the snapshots with energy 50 and 68. -/
theorem calculateTrend_50_56_improving_witness :
    calculateTrend ⟨some 50, some 50, some 50, some 50, some 50⟩
        ⟨some 68, some 50, some 50, some 50, some 50⟩ = Trend.improving :=
  calculateTrend_50_56_improving _ _ (by norm_num [trendAvg, jsArith])
    (by norm_num [trendAvg, jsArith])

/-! ### The Streak Analyzer -/

theorem any_isGoodMoment_iff (ms : List DatedMoment) (type : String) (day : Int) :
    ms.any (isGoodMoment day type) = true ↔ Qualifies (some ms) type day := by
  simp [Qualifies, isGoodMoment, and_assoc, or_assoc]

theorem streakByDay_add (ms : List DatedMoment) (type : String) (left : Nat) (d : Int)
    (streak : Nat) : streakByDay ms type left d streak = streak + streakByDay ms type left d 0 := by
  induction left generalizing d streak with
  | zero => simp [streakByDay]
  | succ n ih =>
    by_cases h : ms.any (isGoodMoment d type) = true
    · simp only [streakByDay, h, if_true]
      rw [ih (d - 1) (streak + 1), ih (d - 1) (0 + 1)]
      omega
    · simp [streakByDay, h]

theorem streakByDay_le (ms : List DatedMoment) (type : String) (left : Nat) (d : Int) :
    streakByDay ms type left d 0 ≤ left := by
  induction left generalizing d with
  | zero => simp [streakByDay]
  | succ n ih =>
    by_cases h : ms.any (isGoodMoment d type) = true
    · simp only [streakByDay, h, if_true]
      rw [streakByDay_add]
      have := ih (d - 1)
      omega
    · simp [streakByDay, h]

theorem streakByDay_good (ms : List DatedMoment) (type : String) (left : Nat) (d : Int) (i : Nat)
    (hi : i < streakByDay ms type left d 0) : ms.any (isGoodMoment (d - i) type) = true := by
  induction left generalizing d i with
  | zero => simp [streakByDay] at hi
  | succ n ih =>
    by_cases h : ms.any (isGoodMoment d type) = true
    · simp only [streakByDay, h, if_true] at hi
      rw [streakByDay_add] at hi
      cases i with
      | zero => simpa using h
      | succ j =>
        have hj : j < streakByDay ms type n (d - 1) 0 := by omega
        have := ih (d - 1) j hj
        have e : d - 1 - (j : Int) = d - ((j + 1 : Nat) : Int) := by push_cast; ring
        rw [e] at this
        exact this
    · simp [streakByDay, h] at hi

theorem streakByDay_stop (ms : List DatedMoment) (type : String) (left : Nat) (d : Int)
    (hlt : streakByDay ms type left d 0 < left) :
    ms.any (isGoodMoment (d - (streakByDay ms type left d 0 : Nat)) type) = false := by
  induction left generalizing d with
  | zero => simp [streakByDay] at hlt
  | succ n ih =>
    by_cases h : ms.any (isGoodMoment d type) = true
    · simp only [streakByDay, h, if_true] at hlt ⊢
      rw [streakByDay_add] at hlt ⊢
      have hn : streakByDay ms type n (d - 1) 0 < n := by omega
      have := ih (d - 1) hn
      have e : d - 1 - (streakByDay ms type n (d - 1) 0 : Int) =
          d - ((0 + 1 + streakByDay ms type n (d - 1) 0 : Nat) : Int) := by push_cast; ring
      rw [e] at this
      exact this
    · simp only [streakByDay, h]
      simpa using h

theorem calculateStreakByDay_le (moments : Option (List DatedMoment)) (type : String) (days : Nat)
    (today : Int) : calculateStreakByDay moments type days today ≤ days := by
  unfold calculateStreakByDay
  cases moments with
  | none => simp
  | some ms =>
    by_cases h : ms.length = 0
    · simp [h]
    · simp only [h, if_false]
      exact streakByDay_le ms type days today

theorem calculateStreakByDay_good (moments : Option (List DatedMoment)) (type : String) (days : Nat)
    (today : Int) (i : Nat) (hi : i < calculateStreakByDay moments type days today) :
    Qualifies moments type (today - i) := by
  unfold calculateStreakByDay at hi
  cases moments with
  | none => simp at hi
  | some ms =>
    by_cases h : ms.length = 0
    · simp [h] at hi
    · simp only [h, if_false] at hi
      exact (any_isGoodMoment_iff ms type _).mp (streakByDay_good ms type days today i hi)

theorem calculateStreakByDay_stop (moments : Option (List DatedMoment)) (type : String) (days : Nat)
    (today : Int) (hlt : calculateStreakByDay moments type days today < days) :
    ¬ Qualifies moments type (today - (calculateStreakByDay moments type days today : Nat)) := by
  unfold calculateStreakByDay at hlt ⊢
  cases moments with
  | none => simp [Qualifies]
  | some ms =>
    by_cases h : ms.length = 0
    · have hnil : ms = [] := List.length_eq_zero.mp h
      simp [hnil, Qualifies]
    · simp only [h, if_false] at hlt ⊢
      rw [← any_isGoodMoment_iff, Bool.not_eq_true]
      exact streakByDay_stop ms type days today hlt

theorem calculateStreakByDay_isGreatest (moments : Option (List DatedMoment)) (type : String)
    (days : Nat) (today : Int) :
    IsGreatest {k : Nat | k ≤ days ∧ ∀ i : Nat, i < k → Qualifies moments type (today - i)}
      (calculateStreakByDay moments type days today) := by
  refine ⟨⟨calculateStreakByDay_le moments type days today,
    fun i hi => calculateStreakByDay_good moments type days today i hi⟩, ?_⟩
  rintro k ⟨hk, hq⟩
  by_contra hlt
  have hlt' : calculateStreakByDay moments type days today < k := not_le.mp hlt
  exact calculateStreakByDay_stop moments type days today (lt_of_lt_of_le hlt' hk) (hq _ hlt')

theorem isoDate_setDatePrevious {tz : TimeZone} (h : ConstantOffset tz) (t : Int) :
    isoDate (setDatePrevious tz t) = isoDate t - 1 := by
  obtain ⟨c, hc⟩ := h
  simp only [setDatePrevious, isoDate, msPerDay, (hc _).1, (hc _).2]
  omega

theorem streakLoop_eq_streakByDay {tz : TimeZone} (h : ConstantOffset tz)
    (ms : List DatedMoment) (type : String) (left : Nat) (t : Int) (streak : Nat) :
    streakLoop tz ms type left t streak = streakByDay ms type left (isoDate t) streak := by
  induction left generalizing t streak with
  | zero => rfl
  | succ n ih =>
    simp only [streakLoop, streakByDay]
    rw [ih, isoDate_setDatePrevious h]

theorem calculateStreak_eq_byDay {tz : TimeZone} (h : ConstantOffset tz) (now : Int)
    (moments : Option (List DatedMoment)) (type : String) (days : Nat) :
    calculateStreak tz now moments type days =
      calculateStreakByDay moments type days (isoDate now) := by
  cases moments with
  | none => rfl
  | some ms =>
    simp only [calculateStreak, calculateStreakByDay, streakLoop_eq_streakByDay h]

/-- In a time zone whose offset from UTC never changes, `calculateStreak`
returns the largest `k ≤ days` such that every day `today - i`, `i < k`, has a
moment of the given type with intensity low, moderate or positive, where
`today` is the UTC day of the call. -/
theorem calculateStreak_isGreatest_of_constantOffset {tz : TimeZone} (h : ConstantOffset tz)
    (now : Int) (moments : Option (List DatedMoment)) (type : String) (days : Nat) :
    IsGreatest
      {k : Nat | k ≤ days ∧ ∀ i : Nat, i < k → Qualifies moments type (isoDate now - i)}
      (calculateStreak tz now moments type days) := by
  rw [calculateStreak_eq_byDay h]
  exact calculateStreakByDay_isGreatest moments type days (isoDate now)

/-- C11, the failing inputs.  In Europe/London at 2026-03-29T23:30Z (UTC day
20541) with a single favourable moment dated 2026-03-29, the code reads the
date 2026-03-29 twice and returns 2, where the largest `k` of the claim is 1.
In America/New_York at 2026-11-02T00:30Z (UTC day 20759) with favourable
moments dated 2026-11-02 and 2026-10-31 and none on 2026-11-01, the code never
reads 2026-11-01 and returns 2, where the largest `k` of the claim is 1. -/
theorem calculateStreak_daylight_saving :
    calculateStreak londonSpring2026 1774827000000
      (some [{ type := "activity", intensity := "moderate", date := some 20541 }])
      "activity" 7 = 2 ∧
    IsGreatest
      {k : Nat | k ≤ 7 ∧ ∀ i : Nat, i < k →
        Qualifies (some [{ type := "activity", intensity := "moderate", date := some 20541 }])
          "activity" (isoDate 1774827000000 - i)} 1 ∧
    calculateStreak newYorkAutumn2026 1793579400000
      (some [{ type := "activity", intensity := "moderate", date := some 20759 },
        { type := "activity", intensity := "moderate", date := some 20757 }])
      "activity" 7 = 2 ∧
    IsGreatest
      {k : Nat | k ≤ 7 ∧ ∀ i : Nat, i < k →
        Qualifies (some [{ type := "activity", intensity := "moderate", date := some 20759 },
            { type := "activity", intensity := "moderate", date := some 20757 }])
          "activity" (isoDate 1793579400000 - i)} 1 := by
  refine ⟨by decide, ?_, by decide, ?_⟩
  · have h := calculateStreakByDay_isGreatest
      (some [{ type := "activity", intensity := "moderate", date := some 20541 }])
      "activity" 7 (isoDate 1774827000000)
    have e : calculateStreakByDay
        (some [{ type := "activity", intensity := "moderate", date := some 20541 }])
        "activity" 7 (isoDate 1774827000000) = 1 := by decide
    rw [e] at h
    exact h
  · have h := calculateStreakByDay_isGreatest
      (some [{ type := "activity", intensity := "moderate", date := some 20759 },
        { type := "activity", intensity := "moderate", date := some 20757 }])
      "activity" 7 (isoDate 1793579400000)
    have e : calculateStreakByDay
        (some [{ type := "activity", intensity := "moderate", date := some 20759 },
          { type := "activity", intensity := "moderate", date := some 20757 }])
        "activity" 7 (isoDate 1793579400000) = 1 := by decide
    rw [e] at h
    exact h

/-! ### The Twin Simulator -/

/-- C12, the failing input and the general behaviour: `handleMomentSubmit`
passes the what-if vector itself to `applyMomentImpact`, which finds no
`impact` property on it and returns the twin unchanged, for every twin and
every moment.  On the twin with every metric at 50 and a diet/high moment the
what-if vector is `{glucoseStress: -15, insulinWorkload: -12,
adherenceMomentum: 8}`, the twin keeps glucoseStress 50, and adding the deltas
would give 35. -/
theorem updatedWhatIfTwin_unchanged :
    (∀ (T : HealthState) (m : Moment), updatedWhatIfTwin T m = T) ∧
    generateAlternativeScenario ⟨"diet", "high", none⟩ =
      { glucoseStress := some (-15), insulinWorkload := some (-12),
        adherenceMomentum := some 8 } ∧
    (updatedWhatIfTwin ⟨some 50, some 50, some 50, some 50, some 50⟩
      ⟨"diet", "high", none⟩).glucoseStress = some 50 ∧
    (accumulatorStressKeyed ⟨some 50, some 50, some 50, some 50, some 50⟩
      (generateAlternativeScenario ⟨"diet", "high", none⟩)).glucoseStress = some 35 := by
  refine ⟨fun T m => rfl, by decide, rfl, ?_⟩
  have hv : generateAlternativeScenario ⟨"diet", "high", none⟩ =
      { glucoseStress := some (-15), insulinWorkload := some (-12),
        adherenceMomentum := some 8 } := by decide
  rw [hv]
  simp only [accumulatorStressKeyed, nullish, clamp100]
  norm_num

theorem orDefault_some_zero (x : ℚ) : orDefault (some x) 0 = x := by
  by_cases h : x = 0
  · simp [orDefault, h]
  · simp [orDefault, h]

/-- C13, counterexample: on the twin with every metric at 50 and an alternative
vector without an adherenceMomentum entry the code returns adherenceMomentum
75 (the default 10 plus 15), while the formula with a bonus of 15 gives 65. -/
theorem simulateWhatIfTwin_momentum_ne_reference :
    (simulateWhatIfTwin ⟨some 50, some 50, some 50, some 50, some 50⟩
      (some emptyImpact)).adherenceMomentum = some 75 ∧
    momentumReference 50 emptyImpact = 65 := by
  constructor
  · simp only [simulateWhatIfTwin, applyMomentImpact, impactOnly, emptyImpact, orDefault,
      clamp100]
    norm_num
  · simp only [momentumReference, emptyImpact, nullish, clamp100]
    norm_num

/-- C13, amended: for a twin state whose adherenceMomentum `s` is present and
non-zero and an alternative vector whose adherenceMomentum entry is absent or
non-zero, the adherenceMomentum of the result is
`clamp(0, 100, s + (A.adherenceMomentum ?? 10) + 15)`: the entry plus 15 when
there is one, 25 when there is none. -/
theorem simulateWhatIfTwin_momentum (S : HealthState) (A : ImpactVector) (s : ℚ)
    (hS : S.adherenceMomentum = some s) (hs : s ≠ 0) (hA : A.adherenceMomentum ≠ some 0) :
    (simulateWhatIfTwin S (some A)).adherenceMomentum =
      some (clamp100 (s + (nullish A.adherenceMomentum 10 + 15))) := by
  simp only [simulateWhatIfTwin, applyMomentImpact, impactOnly, hS, orDefault_some_zero,
    orDefault_of_ne_zero 10 hA]
  simp [orDefault, hs]

/-- C13, amended, at concrete inputs: momentum 50 with the entry 8 gives 73. -/
theorem simulateWhatIfTwin_momentum_witness :
    (simulateWhatIfTwin ⟨some 50, some 50, some 50, some 50, some 50⟩
      (some { adherenceMomentum := some 8 })).adherenceMomentum =
      some (clamp100 (50 + (nullish (some 8) 10 + 15))) :=
  simulateWhatIfTwin_momentum _ { adherenceMomentum := some 8 } 50 rfl (by norm_num)
    (by simp)

/-- With the products computed as exact rationals, for a twin state whose
energy, glucoseStress and insulinWorkload are present and non-zero and every
alternative vector `A`, the result has energy `clamp(0, 100, e + 1.5 * A.energy)`,
glucoseStress `clamp(0, 100, g + 0.7 * A.glucoseStress)` and insulinWorkload
`clamp(0, 100, i + 0.6 * A.insulinWorkload)`, an absent entry counted as 0.  The
statement is about the rational model only: the source multiplies by 0.7 and
0.6 in binary floating point, where the products are rounded. -/
theorem simulateWhatIfTwin_multipliers (S : HealthState) (A : ImpactVector) (e g i : ℚ)
    (hE : S.energy = some e) (hG : S.glucoseStress = some g) (hI : S.insulinWorkload = some i)
    (he : e ≠ 0) (hg : g ≠ 0) (hi : i ≠ 0) :
    (simulateWhatIfTwin S (some A)).energy = some (clamp100 (e + 1.5 * nullish A.energy 0)) ∧
    (simulateWhatIfTwin S (some A)).glucoseStress =
      some (clamp100 (g + 0.7 * nullish A.glucoseStress 0)) ∧
    (simulateWhatIfTwin S (some A)).insulinWorkload =
      some (clamp100 (i + 0.6 * nullish A.insulinWorkload 0)) := by
  simp only [simulateWhatIfTwin, applyMomentImpact, impactOnly, hE, hG, hI, orDefault_some_zero,
    orDefault_zero]
  simp [orDefault, nullish, he, hg, hi, mul_comm]

/-! ### The two tables compared -/

theorem hasEntry_scenarios_iff (t i : String) :
    hasEntry scenarios t i = true ↔
      (t = "sleep" ∧ i = "poor") ∨ (t = "activity" ∧ i = "high") ∨
      (t = "activity" ∧ i = "low") ∨ (t = "activity" ∧ i = "skipped") ∨
      (t = "diet" ∧ i = "high") ∨ (t = "stress" ∧ i = "high") := by
  simp only [hasEntry, scenarios, List.any_cons, List.any_nil, Bool.or_false, Bool.or_eq_true,
    Bool.and_eq_true, beq_iff_eq]
  constructor
  · rintro (⟨rfl, rfl⟩ | ⟨rfl, rfl | rfl | rfl⟩ | ⟨rfl, rfl⟩ | ⟨rfl, rfl⟩) <;> simp
  · rintro (⟨rfl, rfl⟩ | ⟨rfl, rfl⟩ | ⟨rfl, rfl⟩ | ⟨rfl, rfl⟩ | ⟨rfl, rfl⟩ | ⟨rfl, rfl⟩) <;> simp

/-- C15, counterexample: activity/high has an entry in the what-if table, and
its what-if vector `{energy: 10, stress: -8}` is less favourable than the real
vector `{energy: 20, stress: -15, glucoseStress: -10, insulinWorkload: -5}`:
the what-if energy delta 10 is below the real delta 20. -/
theorem scenarios_activity_high_less_favourable :
    hasEntry scenarios "activity" "high" = true ∧
    (generateAlternativeScenario ⟨"activity", "high", none⟩).energy = some 10 ∧
    (momentImpact ⟨"activity", "high", none⟩).energy = some 20 ∧
    ¬ AtLeastAsFavourable (generateAlternativeScenario ⟨"activity", "high", none⟩)
        (momentImpact ⟨"activity", "high", none⟩) := by
  refine ⟨by decide, rfl, rfl, ?_⟩
  have hw : generateAlternativeScenario ⟨"activity", "high", none⟩ =
      { energy := some 10, stress := some (-8) } := rfl
  have hr : momentImpact ⟨"activity", "high", none⟩ =
      { energy := some 20, stress := some (-15), glucoseStress := some (-10),
        insulinWorkload := some (-5) } := rfl
  rw [hw, hr]
  simp only [AtLeastAsFavourable, nullish]
  norm_num

/-- C15, amended: for every (type, intensity) pair with an entry in the what-if
table other than activity/high, the what-if vector is at least as favourable
as the real vector of `impactMap` for the same pair on every metric, absent
entries counted as 0. -/
theorem scenarios_favourable (t i : String) (x : Option ImpactVector)
    (h : hasEntry scenarios t i = true) (hne : ¬ (t = "activity" ∧ i = "high")) :
    AtLeastAsFavourable (generateAlternativeScenario ⟨t, i, x⟩) (momentImpact ⟨t, i, x⟩) := by
  rcases (hasEntry_scenarios_iff t i).mp h with
    ⟨rfl, rfl⟩ | ⟨rfl, rfl⟩ | ⟨rfl, rfl⟩ | ⟨rfl, rfl⟩ | ⟨rfl, rfl⟩ | ⟨rfl, rfl⟩
  · have hw : generateAlternativeScenario ⟨"sleep", "poor", x⟩ =
        { energy := some 0, stress := some (-5), glucoseStress := some (-3) } := rfl
    have hr : momentImpact ⟨"sleep", "poor", x⟩ =
        { energy := some (-25), stress := some 15, glucoseStress := some 10 } := rfl
    rw [hw, hr]
    simp only [AtLeastAsFavourable, nullish]
    norm_num
  · exact absurd ⟨rfl, rfl⟩ hne
  · have hw : generateAlternativeScenario ⟨"activity", "low", x⟩ =
        { energy := some 10, stress := some (-8), adherenceMomentum := some 5 } := rfl
    have hr : momentImpact ⟨"activity", "low", x⟩ = { energy := some (-5) } := rfl
    rw [hw, hr]
    simp only [AtLeastAsFavourable, nullish]
    norm_num
  · have hw : generateAlternativeScenario ⟨"activity", "skipped", x⟩ =
        { energy := some 15, adherenceMomentum := some 15 } := rfl
    have hr : momentImpact ⟨"activity", "skipped", x⟩ = emptyImpact := rfl
    rw [hw, hr]
    simp only [AtLeastAsFavourable, nullish, emptyImpact]
    norm_num
  · have hw : generateAlternativeScenario ⟨"diet", "high", x⟩ =
        { glucoseStress := some (-15), insulinWorkload := some (-12),
          adherenceMomentum := some 8 } := rfl
    have hr : momentImpact ⟨"diet", "high", x⟩ =
        { glucoseStress := some 25, insulinWorkload := some 20 } := rfl
    rw [hw, hr]
    simp only [AtLeastAsFavourable, nullish]
    norm_num
  · have hw : generateAlternativeScenario ⟨"stress", "high", x⟩ =
        { stress := some (-15), energy := some 5 } := rfl
    have hr : momentImpact ⟨"stress", "high", x⟩ =
        { stress := some 30, energy := some (-15), glucoseStress := some 8 } := rfl
    rw [hw, hr]
    simp only [AtLeastAsFavourable, nullish]
    norm_num

/-- C15, amended, at the pair diet/high. -/
theorem scenarios_favourable_witness :
    AtLeastAsFavourable (generateAlternativeScenario ⟨"diet", "high", none⟩)
      (momentImpact ⟨"diet", "high", none⟩) :=
  scenarios_favourable "diet" "high" none (by decide) (by decide)

/-! ### Absent metrics in the classifiers -/

/-- C16, the failing input: with glucoseStress absent and energy 90,
insulinWorkload 0, adherenceMomentum 65, stressLevel 40 the code returns
balanced, while the same state with glucoseStress 50 is energized (score
76.25). -/
theorem mapHealthToAvatarState_absent_ne_fill50 :
    mapHealthToAvatarState ⟨some 90, none, some 0, some 65, some 40⟩ =
      AvatarCategory.balanced ∧
    fill50 ⟨some 90, none, some 0, some 65, some 40⟩ =
      ⟨some 90, some 50, some 0, some 65, some 40⟩ ∧
    mapHealthToAvatarState (fill50 ⟨some 90, none, some 0, some 65, some 40⟩) =
      AvatarCategory.energized := by
  refine ⟨?_, rfl, ?_⟩
  · simp only [mapHealthToAvatarState, healthScore, jsArith, jsLt, jsGt]
    norm_num
  · simp only [mapHealthToAvatarState, healthScore, jsArith, jsLt, jsGt, fill50, nullish]
    norm_num

theorem mapHealthToAvatarState_stress_absent (e g i a : ℚ) :
    mapHealthToAvatarState ⟨some e, some g, some i, some a, none⟩ =
      mapHealthToAvatarState ⟨some e, some g, some i, some a, some 50⟩ := by
  simp only [mapHealthToAvatarState, healthScore_numeric, jsLt, jsGt]
  norm_num

theorem mapHealthToAvatarState_score_absent (S : HealthState) (h : ¬ ScoreDefined S) :
    firstMatch (avatarRulesNoScore (nullish S.energy 50) (nullish S.glucoseStress 50)
        (nullish S.insulinWorkload 50) (nullish S.adherenceMomentum 50)
        (nullish S.stressLevel 50)) = some (mapHealthToAvatarState S) := by
  obtain ⟨e, g, i, a, s⟩ := S
  rcases e with _ | e <;> rcases g with _ | g <;> rcases i with _ | i <;>
    rcases a with _ | a <;> rcases s with _ | s <;>
    first
    | (exfalso; exact h ⟨rfl, rfl, rfl, rfl⟩)
    | (simp only [mapHealthToAvatarState, healthScore, jsArith, jsLt, jsGt, nullish,
        avatarRulesNoScore, firstMatch, gt_iff_lt, Bool.and_eq_true, Bool.or_eq_true,
        decide_eq_true_eq, Bool.decide_and, Bool.decide_or, if_true, and_assoc,
        apply_ite (some : AvatarCategory → Option AvatarCategory)]
       norm_num)

theorem jsGt_fill50 (x : Option ℚ) (c : ℚ) (hc : 50 ≤ c) :
    jsGt (some (nullish x 50)) (some c) = jsGt x (some c) := by
  cases x with
  | none => simpa [jsGt, nullish] using hc
  | some v => rfl

theorem jsLt_fill50 (x : Option ℚ) (c : ℚ) (hc : c ≤ 50) :
    jsLt (some (nullish x 50)) (some c) = jsLt x (some c) := by
  cases x with
  | none => simpa [jsLt, nullish] using hc
  | some v => rfl

/-- C17: for every state and window, `identifyRiskFactors` returns the same
list on `S` as on `S'`, the state with every absent metric set to 50: an absent
metric triggers no threshold factor, and neither does 50. -/
theorem identifyRiskFactors_fill50 (S : HealthState) (W : Option (List Moment)) :
    identifyRiskFactors S W = identifyRiskFactors (fill50 S) W := by
  simp only [identifyRiskFactors, fill50]
  rw [jsGt_fill50 S.glucoseStress 70 (by norm_num), jsGt_fill50 S.stressLevel 75 (by norm_num),
    jsLt_fill50 S.energy 30 (by norm_num), jsGt_fill50 S.insulinWorkload 80 (by norm_num),
    jsLt_fill50 S.adherenceMomentum 30 (by norm_num)]

/-! ### The data contract of the twin simulator -/

/-- C18, counterexample: on the twin with every metric at the integer 50 and
the integer delta `{energy: 1}` the result has energy 51.5, which is not an
integer. -/
theorem simulateWhatIfTwin_not_integer :
    (simulateWhatIfTwin ⟨some 50, some 50, some 50, some 50, some 50⟩
      (some { energy := some 1 })).energy = some (103 / 2) ∧
    ¬ IsInteger (simulateWhatIfTwin ⟨some 50, some 50, some 50, some 50, some 50⟩
      (some { energy := some 1 })).energy := by
  have h : (simulateWhatIfTwin ⟨some 50, some 50, some 50, some 50, some 50⟩
      (some { energy := some 1 })).energy = some (103 / 2) := by
    simp only [simulateWhatIfTwin, applyMomentImpact, impactOnly, orDefault, clamp100]
    norm_num
  refine ⟨h, ?_⟩
  rw [h]
  rintro ⟨n, hn⟩
  have h2 : (103 : ℚ) = 2 * (n : ℚ) := by
    have := Option.some.inj hn
    linarith
  have h3 : (103 : ℤ) = 2 * n := by exact_mod_cast h2
  omega

/-- C18, amended: for every twin state and every alternative vector, every
metric of `simulateWhatIfTwin(state, alternative)` is a number in `[0, 100]`
(not necessarily an integer). -/
theorem simulateWhatIfTwin_inRange (S : HealthState) (A : ImpactVector) :
    InRange (simulateWhatIfTwin S (some A)).energy ∧
    InRange (simulateWhatIfTwin S (some A)).glucoseStress ∧
    InRange (simulateWhatIfTwin S (some A)).insulinWorkload ∧
    InRange (simulateWhatIfTwin S (some A)).adherenceMomentum ∧
    InRange (simulateWhatIfTwin S (some A)).stressLevel := by
  simp only [simulateWhatIfTwin, applyMomentImpact, impactOnly]
  exact ⟨inRange_clamp100 _, inRange_clamp100 _, inRange_clamp100 _, inRange_clamp100 _,
    inRange_clamp100 _⟩

/-! ### Path dependence and determinism -/

/-- C19: accumulation is path-dependent.  On the state with energy 90 and the
other metrics at 50, all in `[0, 100]`, applying the deltas +20 then -20 to
energy gives 80, and applying -20 then +20 gives 90. -/
theorem applyMomentImpact_path_dependent :
    ∃ (S : HealthState) (I1 I2 : ImpactVector),
      (InRange S.energy ∧ InRange S.glucoseStress ∧ InRange S.insulinWorkload ∧
        InRange S.adherenceMomentum ∧ InRange S.stressLevel) ∧
      applyMomentImpact (applyMomentImpact S (some (impactOnly I1))) (some (impactOnly I2)) ≠
        applyMomentImpact (applyMomentImpact S (some (impactOnly I2))) (some (impactOnly I1)) := by
  refine ⟨⟨some 90, some 50, some 50, some 50, some 50⟩, { energy := some 20 },
    { energy := some (-20) }, ?_, ?_⟩
  · refine ⟨⟨90, rfl, ?_, ?_⟩, ⟨50, rfl, ?_, ?_⟩, ⟨50, rfl, ?_, ?_⟩, ⟨50, rfl, ?_, ?_⟩,
      ⟨50, rfl, ?_, ?_⟩⟩ <;> norm_num
  · intro h
    have he := congrArg HealthState.energy h
    simp only [applyMomentImpact, impactOnly, orDefault, clamp100] at he
    norm_num at he

/-- C20, counterexample: in the time zone UTC the same moments, type and
number of days give the streak 1 when the clock reads 2026-03-29T12:00Z and the
streak 0 when it reads 2026-03-30T12:00Z. -/
theorem calculateStreak_depends_on_clock :
    calculateStreak utcZone 1774785600000
      (some [{ type := "activity", intensity := "moderate", date := some 20541 }])
      "activity" 7 = 1 ∧
    calculateStreak utcZone 1774872000000
      (some [{ type := "activity", intensity := "moderate", date := some 20541 }])
      "activity" 7 = 0 := by
  constructor <;> decide

/-- C20, amended: `calculateStreak` reads the clock and the time zone besides
its arguments; in a time zone whose offset from UTC never changes, two calls
with equal moments, type and number of days return the same integer whenever
their clock readings fall on the same UTC day. -/
theorem calculateStreak_same_day (tz : TimeZone) (now now' : Int)
    (moments : Option (List DatedMoment)) (type : String) (days : Nat)
    (hzone : ConstantOffset tz) (hday : isoDate now = isoDate now') :
    calculateStreak tz now moments type days = calculateStreak tz now' moments type days := by
  rw [calculateStreak_eq_byDay hzone, calculateStreak_eq_byDay hzone, hday]

/-- C20, amended, at concrete inputs: in UTC, the readings 2026-03-29T12:00Z
and 2026-03-29T23:30Z give the same streak. -/
theorem calculateStreak_same_day_witness :
    calculateStreak utcZone 1774785600000
        (some [{ type := "activity", intensity := "moderate", date := some 20541 }])
        "activity" 7 =
      calculateStreak utcZone 1774827000000
        (some [{ type := "activity", intensity := "moderate", date := some 20541 }])
        "activity" 7 :=
  calculateStreak_same_day utcZone 1774785600000 1774827000000 _ "activity" 7
    ⟨0, fun _ => ⟨rfl, rfl⟩⟩ (by decide)

/-! ### The composite score of the precedence example -/

/-- C21, counterexample: on the state energy 20, glucoseStress 10,
insulinWorkload 10, adherenceMomentum 90, stressLevel 80 the score computed by
`mapHealthToAvatarState` is 72.5, and the test `healthScore > 75` of rule 5 is
false. -/
theorem healthScore_example_not_above_75 :
    healthScore ⟨some 20, some 10, some 10, some 90, some 80⟩ = some (145 / 2) ∧
    jsGt (healthScore ⟨some 20, some 10, some 10, some 90, some 80⟩) (some 75) = false := by
  have h : healthScore ⟨some 20, some 10, some 10, some 90, some 80⟩ = some (145 / 2) := by
    simp only [healthScore, jsArith]
    norm_num
  refine ⟨h, ?_⟩
  rw [h]
  simp only [jsGt]
  norm_num

/-- C21, amended: the score of the example state is 72.5, which is not greater
than 75; with rules 1 to 4 left out, the first matching rule of the decision
list is rule 8 (score > 50) and the category is balanced, not energized. -/
theorem healthScore_example_balanced :
    specScore 20 10 10 90 = 145 / 2 ∧
    healthScore ⟨some 20, some 10, some 10, some 90, some 80⟩ = some (specScore 20 10 10 90) ∧
    firstMatch ((avatarRules 20 10 10 90 80).drop 4) = some AvatarCategory.balanced := by
  have hs : specScore 20 10 10 90 = 145 / 2 := by
    simp only [specScore]
    norm_num
  refine ⟨hs, healthScore_numeric 20 10 10 90 (some 80), ?_⟩
  simp only [avatarRules, List.drop, hs, firstMatch]
  norm_num

/-! ### The baseline health score -/

theorem mathRound_mono {x y : ℚ} (h : x ≤ y) : mathRound x ≤ mathRound y :=
  Int.floor_le_floor (by linarith)

theorem calculateHealthScore_glucose_mono (e i a s : Option ℚ) (g g' : ℚ) (hg : g ≠ 0)
    (hg' : g' ≠ 0) (h : g ≤ g') :
    calculateHealthScore ⟨e, some g', i, a, s⟩ ≤ calculateHealthScore ⟨e, some g, i, a, s⟩ := by
  simp only [calculateHealthScore, orDefault, hg, hg', if_false]
  apply mathRound_mono
  nlinarith

theorem calculateHealthScore_insulin_mono (e g a s : Option ℚ) (i i' : ℚ) (hi : i ≠ 0)
    (hi' : i' ≠ 0) (h : i ≤ i') :
    calculateHealthScore ⟨e, g, some i', a, s⟩ ≤ calculateHealthScore ⟨e, g, some i, a, s⟩ := by
  simp only [calculateHealthScore, orDefault, hi, hi', if_false]
  apply mathRound_mono
  nlinarith

/-- C22, the failing inputs: with the other metrics at 50, glucoseStress 0 gives
the score 50 and glucoseStress 10 the score 62, and insulinWorkload 0 gives 50
and insulinWorkload 10 gives 60: the state with the lower value has the lower
score. -/
theorem calculateHealthScore_zero_not_mono :
    calculateHealthScore ⟨some 50, some 0, some 50, some 50, some 50⟩ = 50 ∧
    calculateHealthScore ⟨some 50, some 10, some 50, some 50, some 50⟩ = 62 ∧
    calculateHealthScore ⟨some 50, some 50, some 0, some 50, some 50⟩ = 50 ∧
    calculateHealthScore ⟨some 50, some 50, some 10, some 50, some 50⟩ = 60 := by
  refine ⟨?_, ?_, ?_, ?_⟩ <;>
    simp only [calculateHealthScore, orDefault, mathRound] <;>
    norm_num [Int.floor_eq_iff]

/-! ### The rate limiter -/

theorem shiftWhileOver10_suffix (l : List Int) :
    ∃ d, l = d ++ shiftWhileOver10 l ∧ (d = [] ∨ 2 ≤ (shiftWhileOver10 l).length) := by
  induction l with
  | nil => exact ⟨[], rfl, Or.inl rfl⟩
  | cons t ts ih =>
    by_cases h : (t :: ts).length > 10
    · obtain ⟨d, hd, hlen⟩ := ih
      refine ⟨t :: d, ?_, Or.inr ?_⟩
      · simp only [shiftWhileOver10, h, if_true, List.cons_append]
        rw [← hd]
      · simp only [shiftWhileOver10, h, if_true]
        rcases hlen with rfl | hlen
        · have hts : ts = shiftWhileOver10 ts := by simpa using hd
          rw [← hts]
          simp only [List.length_cons] at h
          omega
        · exact hlen
    · refine ⟨[], ?_, Or.inl rfl⟩
      simp only [shiftWhileOver10, h, if_false, List.nil_append]

theorem storesEndOf_push {ts hist : List Int} (h : StoresEndOf ts hist) (now : Int) :
    StoresEndOf (shiftWhileOver10 (ts ++ [now])) (hist ++ [now]) := by
  obtain ⟨pre, hpre, hlen⟩ := h
  obtain ⟨d, hd, hd2⟩ := shiftWhileOver10_suffix (ts ++ [now])
  refine ⟨pre ++ d, ?_, ?_⟩
  · rw [hpre, List.append_assoc, List.append_assoc, ← hd]
  · rcases hd2 with rfl | hd2
    · rcases hlen with rfl | hlen
      · exact Or.inl rfl
      · right
        have : shiftWhileOver10 (ts ++ [now]) = ts ++ [now] := by simpa using hd.symm
        rw [this]
        simp only [List.length_append, List.length_singleton]
        omega
    · exact Or.inr hd2

theorem two_recent_of_pair {ts hist : List Int} {now t1 t2 : Int} (h : StoresEndOf ts hist)
    (hsorted : hist.Pairwise (· ≤ ·)) (hle : ∀ t ∈ hist, t ≤ now)
    (hsub : [t1, t2].Sublist hist) (hrecent : now - t1 < 2000) :
    2 ≤ (ts.filter (fun t => decide (now - t < 2000))).length := by
  obtain ⟨pre, hpre, hlen⟩ := h
  subst hpre
  have h12 : t1 ≤ t2 := by
    have := hsorted.sublist hsub
    simpa using this
  have ht2 : now - t2 < 2000 := by omega
  have hpair : ([t1, t2].filter (fun t => decide (now - t < 2000))) = [t1, t2] := by
    simp [hrecent, ht2]
  obtain ⟨l1, l2, hl, hl1, hl2⟩ := List.sublist_append_iff.mp hsub
  rcases l1 with _ | ⟨a, l1⟩
  · -- both calls are stored
    simp only [List.nil_append] at hl
    subst hl
    have := (hl2.filter (fun t => decide (now - t < 2000))).length_le
    rw [hpair] at this
    simpa using this
  · -- the first call was dropped: every stored call is at least as late
    have ha : a = t1 := by
      simp only [List.cons_append, List.cons.injEq] at hl
      exact hl.1.symm
    subst ha
    have hmem : a ∈ pre := hl1.subset (List.mem_cons_self _ _)
    have hne : pre ≠ [] := List.ne_nil_of_mem hmem
    have hlen2 : 2 ≤ ts.length := by
      rcases hlen with h0 | h2
      · exact absurd h0 hne
      · exact h2
    have hall : ∀ t ∈ ts, decide (now - t < 2000) = true := by
      intro t ht
      have h1 : a ≤ t := (List.pairwise_append.mp hsorted).2.2 a hmem t ht
      have h2 : t ≤ now := hle t (List.mem_append_right _ ht)
      simp only [decide_eq_true_eq]
      omega
    rw [List.filter_eq_self.mpr hall]
    exact hlen2

theorem spaced_push {hist : List Int} {now : Int} (hsp : Spaced hist)
    (hgap : ∀ t1 t2 : Int, [t1, t2].Sublist hist → 2000 ≤ now - t1) :
    Spaced (hist ++ [now]) := by
  intro t1 t2 t3 hsub
  obtain ⟨l1, l2, hl, hl1, hl2⟩ := List.sublist_append_iff.mp hsub
  rcases List.sublist_singleton.mp hl2 with rfl | rfl
  · rw [List.append_nil] at hl
    subst hl
    exact hsp t1 t2 t3 hl1
  · rcases l1 with _ | ⟨a, _ | ⟨b, _ | ⟨c, l1⟩⟩⟩
    · simp at hl
    · simp at hl
    · simp only [List.cons_append, List.nil_append, List.cons.injEq, and_true] at hl
      obtain ⟨rfl, rfl, rfl⟩ := hl
      exact hgap _ _ hl1
    · simp at hl

theorem spaced_admittedCalls (calls : List Int) :
    ∀ ts hist : List Int, StoresEndOf ts hist → (hist ++ calls).Pairwise (· ≤ ·) → Spaced hist →
      Spaced (hist ++ admittedCalls ts calls) := by
  induction calls with
  | nil =>
    intro ts hist _ _ hsp
    simpa [admittedCalls] using hsp
  | cons now rest ih =>
    intro ts hist hst hsorted hsp
    have hparts := List.pairwise_append.mp hsorted
    have hle : ∀ t ∈ hist, t ≤ now := fun t ht => hparts.2.2 t ht now (List.mem_cons_self _ _)
    by_cases hlim : 2 ≤ (ts.filter (fun t => decide (now - t < 2000))).length
    · -- the call is refused: nothing is stored
      have hstep : isRateLimited ts now = (true, ts) := by
        simp only [isRateLimited, ge_iff_le, hlim, if_true]
      have hsorted' : (hist ++ rest).Pairwise (· ≤ ·) :=
        hsorted.sublist (List.Sublist.append_left (List.sublist_cons_self now rest) hist)
      simpa [admittedCalls, hstep] using ih ts hist hst hsorted' hsp
    · -- the call is admitted and stored
      have hstep : isRateLimited ts now = (false, shiftWhileOver10 (ts ++ [now])) := by
        simp only [isRateLimited, ge_iff_le, hlim, if_false]
      have hgap : ∀ t1 t2 : Int, [t1, t2].Sublist hist → 2000 ≤ now - t1 := by
        intro t1 t2 hsub
        by_contra hlt
        exact hlim (two_recent_of_pair hst hparts.1 hle hsub (not_le.mp hlt))
      have hsorted' : ((hist ++ [now]) ++ rest).Pairwise (· ≤ ·) := by
        simpa using hsorted
      have := ih (shiftWhileOver10 (ts ++ [now])) (hist ++ [now]) (storesEndOf_push hst now)
        hsorted' (spaced_push hsp hgap)
      simpa [admittedCalls, hstep] using this

/-- C23: from the empty timestamp list and for every sequence of calls made at
non-decreasing clock values, any three admitted calls, taken in call order,
have a first and a last timestamp at least 2000 ms apart: at most 2 calls are
admitted in any 2-second window. -/
theorem isRateLimited_two_per_window (calls : List Int) (hclock : calls.Pairwise (· ≤ ·))
    (t1 t2 t3 : Int) (hadm : [t1, t2, t3].Sublist (admittedCalls [] calls)) :
    2000 ≤ t3 - t1 := by
  have h := spaced_admittedCalls calls [] [] ⟨[], rfl, Or.inl rfl⟩ (by simpa using hclock)
    (fun a b c hsub => by simp at hsub)
  simp only [List.nil_append] at h
  exact h t1 t2 t3 hadm

/-- C23, on a concrete run: calls at 0, 500, 1000, 2000 and 2100 ms; the calls
at 0, 500 and 2000 are admitted, the other two are refused. -/
theorem isRateLimited_two_per_window_witness :
    admittedCalls [] [0, 500, 1000, 2000, 2100] = [0, 500, 2000] ∧ (2000 : Int) ≤ 2000 - 0 :=
  ⟨by decide,
    isRateLimited_two_per_window [0, 500, 1000, 2000, 2100] (by decide) 0 500 2000
      (by decide)⟩

/-! ### The impact key of stress and the default on zero -/

/-- C24: for a state whose stressLevel `s` is present and non-zero and a moment
with impact vector `I`, the stressLevel of the result is
`clamp(0, 100, s + (I.stress or 0))`, and whatever is put under the key
`stressLevel` of `I` changes nothing in the result. -/
theorem applyMomentImpact_stress_key (S : HealthState) (m : Moment) (I : ImpactVector) (s : ℚ)
    (hI : m.impact = some I) (hS : S.stressLevel = some s) (hs : s ≠ 0) :
    (applyMomentImpact S (some m)).stressLevel = some (clamp100 (s + nullish I.stress 0)) ∧
    ∀ v : Option ℚ,
      applyMomentImpact S (some { m with impact := some { I with stressLevel := v } }) =
        applyMomentImpact S (some m) := by
  constructor
  · simp only [applyMomentImpact, hI, hS, orDefault_zero]
    simp [orDefault, hs]
  · intro v
    simp only [applyMomentImpact, hI]

/-- C24, at a concrete input: stressLevel 60 with the impact `{stress: 30}`
gives 90, also when the impact carries `stressLevel: -40`. -/
theorem applyMomentImpact_stress_key_witness :
    (applyMomentImpact ⟨some 50, some 50, some 50, some 50, some 60⟩
      (some ⟨"stress", "high", some { stress := some 30 }⟩)).stressLevel =
        some (clamp100 (60 + nullish (some 30) 0)) ∧
    applyMomentImpact ⟨some 50, some 50, some 50, some 50, some 60⟩
        (some ⟨"stress", "high", some { stress := some 30, stressLevel := some (-40) }⟩) =
      applyMomentImpact ⟨some 50, some 50, some 50, some 50, some 60⟩
        (some ⟨"stress", "high", some { stress := some 30 }⟩) :=
  ⟨(applyMomentImpact_stress_key ⟨some 50, some 50, some 50, some 50, some 60⟩
      ⟨"stress", "high", some { stress := some 30 }⟩ { stress := some 30 } 60 rfl rfl
      (by norm_num)).1,
    (applyMomentImpact_stress_key ⟨some 50, some 50, some 50, some 50, some 60⟩
      ⟨"stress", "high", some { stress := some 30 }⟩ { stress := some 30 } 60 rfl rfl
      (by norm_num)).2 (some (-40))⟩

theorem orDefault_some_zero_left (d : ℚ) : orDefault (some 0) d = d := by
  simp [orDefault]

/-- C25: in `applyMomentImpact` a metric equal to 0 is read as 50: the result
is `clamp(0, 100, 50 + delta)`, with the delta of the metric (read under the
key `stress` for stressLevel, 0 when absent); and `calculateHealthScore` gives
the same score when energy, glucoseStress, insulinWorkload or adherenceMomentum
is 0 as when it is 50. -/
theorem zero_metric_read_as_50 (S : HealthState) (m : Moment) (I : ImpactVector)
    (e g i a s : Option ℚ) (hI : m.impact = some I) :
    (S.energy = some 0 →
      (applyMomentImpact S (some m)).energy = some (clamp100 (50 + nullish I.energy 0))) ∧
    (S.glucoseStress = some 0 →
      (applyMomentImpact S (some m)).glucoseStress =
        some (clamp100 (50 + nullish I.glucoseStress 0))) ∧
    (S.insulinWorkload = some 0 →
      (applyMomentImpact S (some m)).insulinWorkload =
        some (clamp100 (50 + nullish I.insulinWorkload 0))) ∧
    (S.adherenceMomentum = some 0 →
      (applyMomentImpact S (some m)).adherenceMomentum =
        some (clamp100 (50 + nullish I.adherenceMomentum 0))) ∧
    (S.stressLevel = some 0 →
      (applyMomentImpact S (some m)).stressLevel = some (clamp100 (50 + nullish I.stress 0))) ∧
    calculateHealthScore ⟨some 0, g, i, a, s⟩ = calculateHealthScore ⟨some 50, g, i, a, s⟩ ∧
    calculateHealthScore ⟨e, some 0, i, a, s⟩ = calculateHealthScore ⟨e, some 50, i, a, s⟩ ∧
    calculateHealthScore ⟨e, g, some 0, a, s⟩ = calculateHealthScore ⟨e, g, some 50, a, s⟩ ∧
    calculateHealthScore ⟨e, g, i, some 0, s⟩ = calculateHealthScore ⟨e, g, i, some 50, s⟩ := by
  refine ⟨?_, ?_, ?_, ?_, ?_, ?_, ?_, ?_, ?_⟩
  · intro h
    simp only [applyMomentImpact, hI, h, orDefault_some_zero_left, orDefault_zero]
  · intro h
    simp only [applyMomentImpact, hI, h, orDefault_some_zero_left, orDefault_zero]
  · intro h
    simp only [applyMomentImpact, hI, h, orDefault_some_zero_left, orDefault_zero]
  · intro h
    simp only [applyMomentImpact, hI, h, orDefault_some_zero_left, orDefault_zero]
  · intro h
    simp only [applyMomentImpact, hI, h, orDefault_some_zero_left, orDefault_zero]
  · simp [calculateHealthScore, orDefault]
  · simp [calculateHealthScore, orDefault]
  · simp [calculateHealthScore, orDefault]
  · simp [calculateHealthScore, orDefault]

/-- C25, at a concrete input: energy 0 with the impact `{energy: -25}` gives
`clamp(0, 100, 50 - 25)`. -/
theorem zero_metric_read_as_50_witness :
    (applyMomentImpact ⟨some 0, some 50, some 50, some 50, some 50⟩
      (some ⟨"sleep", "poor", some { energy := some (-25) }⟩)).energy =
        some (clamp100 (50 + nullish (some (-25)) 0)) :=
  (zero_metric_read_as_50 ⟨some 0, some 50, some 50, some 50, some 50⟩
    ⟨"sleep", "poor", some { energy := some (-25) }⟩ { energy := some (-25) }
    none none none none none rfl).1 rfl

/-! ### Moderate moments and the stress metric of the twin -/

/-- C26: for each of the five moment types the impact resolved from `impactMap`
for the intensity moderate is the empty vector, and applying the moment that
carries it to a state whose five metrics are present, non-zero and in
`[0, 100]` returns that state. -/
theorem moderate_moment_no_change (t : String) (x : Option ImpactVector) (e g i a s : ℚ)
    (ht : t ∈ ["sleep", "activity", "diet", "stress", "emotional"])
    (he : e ≠ 0) (hg : g ≠ 0) (hi : i ≠ 0) (ha : a ≠ 0) (hs : s ≠ 0)
    (he0 : 0 ≤ e) (hg0 : 0 ≤ g) (hi0 : 0 ≤ i) (ha0 : 0 ≤ a) (hs0 : 0 ≤ s)
    (he1 : e ≤ 100) (hg1 : g ≤ 100) (hi1 : i ≤ 100) (ha1 : a ≤ 100) (hs1 : s ≤ 100) :
    momentImpact ⟨t, "moderate", x⟩ = emptyImpact ∧
    applyMomentImpact ⟨some e, some g, some i, some a, some s⟩
        (some ⟨t, "moderate", some (momentImpact ⟨t, "moderate", x⟩)⟩) =
      ⟨some e, some g, some i, some a, some s⟩ := by
  have hempty : momentImpact ⟨t, "moderate", x⟩ = emptyImpact := by
    simp only [List.mem_cons, List.mem_singleton, List.not_mem_nil, or_false] at ht
    rcases ht with rfl | rfl | rfl | rfl | rfl <;> rfl
  refine ⟨hempty, ?_⟩
  rw [hempty]
  simp only [applyMomentImpact, emptyImpact, orDefault, he, hg, hi, ha, hs, if_false, add_zero,
    clamp100_of_mem he0 he1, clamp100_of_mem hg0 hg1, clamp100_of_mem hi0 hi1,
    clamp100_of_mem ha0 ha1, clamp100_of_mem hs0 hs1]

/-- C26, at a concrete input: an activity/moderate moment on the state
60, 40, 30, 100, 20. -/
theorem moderate_moment_no_change_witness :
    momentImpact ⟨"activity", "moderate", none⟩ = emptyImpact ∧
    applyMomentImpact ⟨some 60, some 40, some 30, some 100, some 20⟩
        (some ⟨"activity", "moderate", some (momentImpact ⟨"activity", "moderate", none⟩)⟩) =
      ⟨some 60, some 40, some 30, some 100, some 20⟩ :=
  moderate_moment_no_change "activity" none 60 40 30 100 20 (by simp)
    (by norm_num) (by norm_num) (by norm_num) (by norm_num) (by norm_num)
    (by norm_num) (by norm_num) (by norm_num) (by norm_num) (by norm_num)
    (by norm_num) (by norm_num) (by norm_num) (by norm_num) (by norm_num)

/-- C27: for a twin state whose stressLevel is present, non-zero and in
`[0, 100]` and every alternative vector (present or not, whatever its `stress`
and `stressLevel` entries), the stressLevel of `simulateWhatIfTwin(S, A)` is
that of `S`. -/
theorem simulateWhatIfTwin_stress_unchanged (S : HealthState) (A : Option ImpactVector) (s : ℚ)
    (hS : S.stressLevel = some s) (hs : s ≠ 0) (hs0 : 0 ≤ s) (hs1 : s ≤ 100) :
    (simulateWhatIfTwin S A).stressLevel = S.stressLevel := by
  cases A with
  | none => rfl
  | some alternative =>
    simp only [simulateWhatIfTwin, applyMomentImpact, impactOnly, hS, orDefault, hs, if_false,
      add_zero, clamp100_of_mem hs0 hs1]

/-- C27, at a concrete input: stressLevel 70 and an alternative vector with the
entries `stress: -15` and `stressLevel: -30`. -/
theorem simulateWhatIfTwin_stress_unchanged_witness :
    (simulateWhatIfTwin ⟨some 50, some 50, some 50, some 50, some 70⟩
      (some { energy := some 5, stress := some (-15), stressLevel := some (-30) })).stressLevel =
      some 70 :=
  simulateWhatIfTwin_stress_unchanged ⟨some 50, some 50, some 50, some 50, some 70⟩
    (some { energy := some 5, stress := some (-15), stressLevel := some (-30) }) 70 rfl
    (by norm_num) (by norm_num) (by norm_num)

/-! ### Attainable categories -/

theorem mapHealthToAvatarState_of_firstMatch {e g i a s : ℚ} {c : AvatarCategory}
    (h : firstMatch (avatarRules e g i a s) = some c) :
    mapHealthToAvatarState ⟨some e, some g, some i, some a, some s⟩ = c := by
  rw [mapHealthToAvatarState_firstMatch] at h
  exact Option.some.inj h

/-- C28: each of the six categories is the image of a state whose five metrics
are integers in `0..100`; the state 80, 60, 60, 80, 50 is energized with score
60, hence through rule 6, and the state 40, 70, 70, 70, 50 is recovering, which
only rule 9 returns. -/
theorem mapHealthToAvatarState_surjective :
    (∀ c : AvatarCategory, ∃ e g i a s : ℕ,
      e ≤ 100 ∧ g ≤ 100 ∧ i ≤ 100 ∧ a ≤ 100 ∧ s ≤ 100 ∧
      mapHealthToAvatarState ⟨some (e : ℚ), some (g : ℚ), some (i : ℚ), some (a : ℚ),
        some (s : ℚ)⟩ = c) ∧
    (specScore 80 60 60 80 ≤ 75 ∧
      mapHealthToAvatarState ⟨some 80, some 60, some 60, some 80, some 50⟩ =
        AvatarCategory.energized) ∧
    (40 < specScore 40 70 70 70 ∧ (50 : ℚ) < 70 ∧
      mapHealthToAvatarState ⟨some 40, some 70, some 70, some 70, some 50⟩ =
        AvatarCategory.recovering) := by
  have henergized : mapHealthToAvatarState ⟨some 80, some 60, some 60, some 80, some 50⟩ =
      AvatarCategory.energized := by
    apply mapHealthToAvatarState_of_firstMatch
    simp only [avatarRules, specScore, firstMatch]
    norm_num
  have hbalanced : mapHealthToAvatarState ⟨some 50, some 50, some 50, some 50, some 50⟩ =
      AvatarCategory.balanced := by
    apply mapHealthToAvatarState_of_firstMatch
    simp only [avatarRules, specScore, firstMatch]
    norm_num
  have hstruggling : mapHealthToAvatarState ⟨some 50, some 80, some 50, some 50, some 50⟩ =
      AvatarCategory.struggling := by
    apply mapHealthToAvatarState_of_firstMatch
    simp only [avatarRules, specScore, firstMatch]
    norm_num
  have hstressed : mapHealthToAvatarState ⟨some 20, some 50, some 50, some 50, some 80⟩ =
      AvatarCategory.stressed := by
    apply mapHealthToAvatarState_of_firstMatch
    simp only [avatarRules, specScore, firstMatch]
    norm_num
  have htired : mapHealthToAvatarState ⟨some 30, some 50, some 50, some 50, some 50⟩ =
      AvatarCategory.tired := by
    apply mapHealthToAvatarState_of_firstMatch
    simp only [avatarRules, specScore, firstMatch]
    norm_num
  have hrecovering : mapHealthToAvatarState ⟨some 40, some 70, some 70, some 70, some 50⟩ =
      AvatarCategory.recovering := by
    apply mapHealthToAvatarState_of_firstMatch
    simp only [avatarRules, specScore, firstMatch]
    norm_num
  refine ⟨?_, ⟨?_, henergized⟩, ⟨?_, by norm_num, hrecovering⟩⟩
  · intro c
    cases c
    · exact ⟨80, 60, 60, 80, 50, by norm_num, by norm_num, by norm_num, by norm_num,
        by norm_num, by exact_mod_cast henergized⟩
    · exact ⟨50, 50, 50, 50, 50, by norm_num, by norm_num, by norm_num, by norm_num,
        by norm_num, by exact_mod_cast hbalanced⟩
    · exact ⟨50, 80, 50, 50, 50, by norm_num, by norm_num, by norm_num, by norm_num,
        by norm_num, by exact_mod_cast hstruggling⟩
    · exact ⟨20, 50, 50, 50, 80, by norm_num, by norm_num, by norm_num, by norm_num,
        by norm_num, by exact_mod_cast hstressed⟩
    · exact ⟨30, 50, 50, 50, 50, by norm_num, by norm_num, by norm_num, by norm_num,
        by norm_num, by exact_mod_cast htired⟩
    · exact ⟨40, 70, 70, 70, 50, by norm_num, by norm_num, by norm_num, by norm_num,
        by norm_num, by exact_mod_cast hrecovering⟩
  · simp only [specScore]
    norm_num
  · simp only [specScore]
    norm_num

/-! ### The status of a metric on the dashboard -/

/-- C30: for the types stress and glucose and every numeric value `v`,
`getMetricStatus` returns the status Critical when `v > 30` and Good otherwise,
never the status Caution nor a yellow colour class; for every other type the
status Fair is returned exactly when `40 < v ≤ 70`. -/
theorem getMetricStatus_caution_unreachable (v : ℚ) (t : String) :
    ((t = "stress" ∨ t = "glucose") →
      (getMetricStatus (some v) t).status = (if v > 30 then "Critical" else "Good") ∧
      (getMetricStatus (some v) t).status ≠ "Caution" ∧
      (getMetricStatus (some v) t).color ≠ "bg-yellow-100 text-yellow-700" ∧
      (getMetricStatus (some v) t).progressColor ≠ some "bg-yellow-500") ∧
    (¬ (t = "stress" ∨ t = "glucose") →
      ((getMetricStatus (some v) t).status = "Fair" ↔ 40 < v ∧ v ≤ 70)) := by
  constructor
  · intro ht
    have hcond : (t == "stress" || t == "glucose") = true := by
      rcases ht with rfl | rfl <;> decide
    by_cases h30 : v > 30
    · simp only [getMetricStatus, hcond, if_true, h30]
      refine ⟨trivial, by decide, by decide, by decide⟩
    · have h40 : ¬ v > 40 := fun h => h30 (by linarith)
      simp only [getMetricStatus, hcond, if_true, h30, h40, if_false]
      refine ⟨trivial, by decide, by decide, by decide⟩
  · intro ht
    have hcond : (t == "stress" || t == "glucose") = false := by
      rw [Bool.or_eq_false_iff, beq_eq_false_iff_ne, beq_eq_false_iff_ne]
      exact ⟨fun h => ht (Or.inl h), fun h => ht (Or.inr h)⟩
    by_cases h70 : v > 70
    · have hst : (getMetricStatus (some v) t).status = "Excellent" := by
        simp only [getMetricStatus, hcond, Bool.false_eq_true, if_false, h70, if_true]
      rw [hst]
      constructor
      · intro h
        exact absurd h (by decide)
      · rintro ⟨_, h⟩
        exact absurd h70 (not_lt.mpr h)
    · by_cases h40 : v > 40
      · have hst : (getMetricStatus (some v) t).status = "Fair" := by
          simp only [getMetricStatus, hcond, Bool.false_eq_true, if_false, h70, h40, if_true]
        rw [hst]
        exact ⟨fun _ => ⟨h40, not_lt.mp h70⟩, fun _ => rfl⟩
      · have hst : (getMetricStatus (some v) t).status = "Low" := by
          simp only [getMetricStatus, hcond, Bool.false_eq_true, if_false, h70, h40]
        rw [hst]
        constructor
        · intro h
          exact absurd h (by decide)
        · rintro ⟨h, _⟩
          exact absurd h h40

/-- C30, at concrete values: stress 35 is Critical, glucose 30 is Good, and
energy 70 is Fair. -/
theorem getMetricStatus_caution_unreachable_witness :
    (getMetricStatus (some 35) "stress").status = (if (35 : ℚ) > 30 then "Critical" else "Good") ∧
    (getMetricStatus (some 30) "glucose").status ≠ "Caution" ∧
    (getMetricStatus (some 70) "energy").status = "Fair" :=
  ⟨((getMetricStatus_caution_unreachable 35 "stress").1 (Or.inl rfl)).1,
    ((getMetricStatus_caution_unreachable 30 "glucose").1 (Or.inr rfl)).2.1,
    ((getMetricStatus_caution_unreachable 70 "energy").2 (by decide)).mpr
      ⟨by norm_num, by norm_num⟩⟩

/-! ### Symmetry of the trend in exact arithmetic -/

/-- With the averages computed as exact rationals, the trend of two snapshots
with numeric energy, glucoseStress and insulinWorkload is improving one way
exactly when it is declining the other way, stable one way exactly when it is
stable the other way, and stable on equal snapshots.  The statement is about
the rational model only: the source computes the averages in binary floating
point, where the division by 3 is rounded. -/
theorem calculateTrend_antisymm_exact (ae ag ai be bg bi : ℚ) (aa as ba bs : Option ℚ) :
    (calculateTrend ⟨some ae, some ag, some ai, aa, as⟩ ⟨some be, some bg, some bi, ba, bs⟩ =
        Trend.improving ↔
      calculateTrend ⟨some be, some bg, some bi, ba, bs⟩ ⟨some ae, some ag, some ai, aa, as⟩ =
        Trend.declining) ∧
    (calculateTrend ⟨some ae, some ag, some ai, aa, as⟩ ⟨some be, some bg, some bi, ba, bs⟩ =
        Trend.stable ↔
      calculateTrend ⟨some be, some bg, some bi, ba, bs⟩ ⟨some ae, some ag, some ai, aa, as⟩ =
        Trend.stable) ∧
    calculateTrend ⟨some ae, some ag, some ai, aa, as⟩ ⟨some ae, some ag, some ai, aa, as⟩ =
      Trend.stable := by
  rw [calculateTrend_of_avg (trendAvg_numeric ae ag ai aa as) (trendAvg_numeric be bg bi ba bs),
    calculateTrend_of_avg (trendAvg_numeric be bg bi ba bs) (trendAvg_numeric ae ag ai aa as),
    calculateTrend_of_avg (trendAvg_numeric ae ag ai aa as) (trendAvg_numeric ae ag ai aa as)]
  generalize specAvg ae ag ai = p
  generalize specAvg be bg bi = q
  have e1 : q < p - 5 ↔ q + 5 < p := ⟨fun h => by linarith, fun h => by linarith⟩
  have e2 : p < q - 5 ↔ p + 5 < q := ⟨fun h => by linarith, fun h => by linarith⟩
  have e3 : ¬ p + 5 < p := by linarith
  have e4 : ¬ p < p - 5 := by linarith
  simp only [e1, e2, e3, e4, if_false, true_and]
  by_cases h1 : p + 5 < q
  · have h2 : ¬ q + 5 < p := by linarith
    simp [h1, h2]
  · by_cases h2 : q + 5 < p <;> simp [h1, h2]

end LifeMirror
